import Mathlib

/-!
# PMW3360 optical motion sensor driver

Shallow embedding of `keyboards/keyball/drivers/pmw3360/bmp_pmw3360.c`.

The driver talks to the sensor over an SPI bus.  Every call the C code makes to
the bus transport (`spi_start`, `spi_stop`, `spim_start`, `wait_us`, `wait_ms`,
`spim_init`, `setPinOutput`) is appended, in program order, to the `bus` log of
the state; every completed `pmw3360_reg_read` / `pmw3360_reg_write` is appended
to the `ops` log.  The file-scope variables of the C file are fields of the
state.  The sensor is an arbitrary deterministic machine that sees the chip
select line and the bytes sent, and produces the bytes received.
-/

namespace PMW3360

/-- Constants of the header `bmp_pmw3360.h` (register addresses, the CPI
ceiling) and the two preprocessor switches the C file tests.  The header is not
part of the sources, so the values are parameters of the embedding. -/
structure Config where
  pmw3360_Product_ID : Nat
  pmw3360_Revision_ID : Nat
  pmw3360_Motion : Nat
  pmw3360_Delta_X_L : Nat
  pmw3360_Delta_X_H : Nat
  pmw3360_Delta_Y_L : Nat
  pmw3360_Delta_Y_H : Nat
  pmw3360_Config1 : Nat
  pmw3360_Config2 : Nat
  pmw3360_SROM_Enable : Nat
  pmw3360_SROM_ID : Nat
  pmw3360_Power_Up_Reset : Nat
  pmw3360_Motion_Burst : Nat
  pmw3360_SROM_Load_Burst : Nat
  pmw3360_MAXCPI : Nat
  DEBUG_PMW3360_SCAN_RATE : Bool
  CONSOLE_ENABLE : Bool
deriving DecidableEq

/-- One call to the bus transport, as the driver issues it.  `spim_start tx rx`
is a transfer that sent the bytes `tx` and received the bytes `rx`. -/
inductive Ev where
  | spim_init : Ev
  | setPinOutput : Ev
  | spi_start : Ev
  | spi_stop : Ev
  | spim_start (tx : List Nat) (rx : List Nat) : Ev
  | wait_us (n : Nat) : Ev
  | wait_ms (n : Nat) : Ev
deriving DecidableEq

/-- One completed register access: `read addr rcv` is a `pmw3360_reg_read(addr)`
that returned `rcv`, `write addr data` a `pmw3360_reg_write(addr, data)`. -/
inductive RegOp where
  | read (addr : Nat) (rcv : Nat) : RegOp
  | write (addr : Nat) (data : Nat) : RegOp
deriving DecidableEq

/-- The sensor at the other end of the bus: a deterministic machine with states
`σ`.  `ncs` is the chip select line being asserted (`true`) or released
(`false`), `mosi` takes one byte sent by the driver, `miso` yields one byte for
the driver to receive. -/
structure Sensor (σ : Type) where
  ncs : σ → Bool → σ
  mosi : σ → Nat → σ
  miso : σ → Nat × σ

/-- The type `pmw3360_motion_t`: two signed 16 bit fields. -/
structure pmw3360_motion_t where
  x : Int
  y : Int
deriving DecidableEq

/-- The file-scope variables of the driver, the timer the platform exposes
through `timer_read32`, the sensor, and the logs. -/
structure State (σ : Type) where
  motion_bursting : Bool
  pmw3360_timer : Nat
  pmw3360_scan_count : Nat
  pmw3360_last_count : Nat
  pmw3360_srom_id : Nat
  clock : Nat
  sensor : σ
  bus : List Ev
  ops : List RegOp
  console : List Nat

/-- Values of the C file's initialisers: `motion_bursting = false`, the three
scan-rate counters `0`, `pmw3360_srom_id = 0`. -/
def State.initial {σ : Type} (s : σ) (clock : Nat) : State σ :=
  { motion_bursting := false, pmw3360_timer := 0, pmw3360_scan_count := 0,
    pmw3360_last_count := 0, pmw3360_srom_id := 0, clock := clock, sensor := s,
    bus := [], ops := [], console := [] }

/-- Conversion of an `int` to `int16_t` (two's complement wrap). -/
def to_int16 (n : Int) : Int := (n + 32768) % 65536 - 32768

/-- Conversion to `uint32_t`. -/
def to_uint32 (n : Nat) : Nat := n % 4294967296

/-- Modelled from the spec: the platform macro `TIMER_DIFF_32(a, b)`, the
"wraparound-safe difference" of two 32 bit timer readings, `(uint32_t)(a - b)`. -/
def TIMER_DIFF_32 (a b : Nat) : Nat :=
  (to_uint32 a + 4294967296 - to_uint32 b) % 4294967296

/-- Platform call `timer_read32()`: the current 32 bit millisecond timer. -/
def timer_read32 {σ : Type} (st : State σ) : Nat := to_uint32 st.clock

/-- Bus transport `spi_start()`: asserts chip select. -/
def spi_start {σ : Type} (dev : Sensor σ) (st : State σ) : State σ :=
  { st with sensor := dev.ncs st.sensor true, bus := st.bus ++ [Ev.spi_start] }

/-- Bus transport `spi_stop()`: releases chip select. -/
def spi_stop {σ : Type} (dev : Sensor σ) (st : State σ) : State σ :=
  { st with sensor := dev.ncs st.sensor false, bus := st.bus ++ [Ev.spi_stop] }

/-- Blocking wait `wait_us(n)`. -/
def wait_us {σ : Type} (n : Nat) (st : State σ) : State σ :=
  { st with bus := st.bus ++ [Ev.wait_us n] }

/-- Blocking wait `wait_ms(n)`. -/
def wait_ms {σ : Type} (n : Nat) (st : State σ) : State σ :=
  { st with bus := st.bus ++ [Ev.wait_ms n] }

/-- Bus transport `spim_init()`: sets up the SPI master. -/
def spim_init {σ : Type} (st : State σ) : State σ :=
  { st with bus := st.bus ++ [Ev.spim_init] }

/-- Pin control `setPinOutput(PMW3360_NCS_PIN)`: makes the chip select pin an
output. -/
def setPinOutput {σ : Type} (st : State σ) : State σ :=
  { st with bus := st.bus ++ [Ev.setPinOutput] }

/-- The sensor clocks out `n` bytes, one after the other. -/
def recvBytes {σ : Type} (dev : Sensor σ) : Nat → σ → List Nat × σ
  | 0, s => ([], s)
  | n + 1, s =>
    let r := dev.miso s
    let rest := recvBytes dev n r.2
    ((r.1 % 256) :: rest.1, rest.2)

/-- Modelled from the spec: the bus transport call
`spim_start(tx, txlen, rx, rxlen, 0xFF)`, "exchanges bytes synchronously over
the link, blocking until complete": the `txlen` bytes of `tx` are sent in
order, then `rxlen` bytes are received; the received bytes are returned. -/
def spim_start {σ : Type} (dev : Sensor σ) (tx : List Nat) (rxlen : Nat)
    (st : State σ) : List Nat × State σ :=
  let s1 := tx.foldl dev.mosi st.sensor
  let r := recvBytes dev rxlen s1
  (r.1, { st with sensor := r.2, bus := st.bus ++ [Ev.spim_start tx r.1] })

/-- Source: `uint8_t pmw3360_reg_read(uint8_t addr)`. -/
def pmw3360_reg_read {σ : Type} (cfg : Config) (dev : Sensor σ) (addr : Nat)
    (st : State σ) : Nat × State σ :=
  let st := spi_start dev st
  let snd := addr &&& 0x7f
  let rcv := 0x00
  let st := (spim_start dev [snd] 0 st).2
  let st := wait_us 160 st
  let r := spim_start dev [] 1 st
  let rcv := r.1.headD rcv
  let st := r.2
  let st := wait_us 1 st
  let st := spi_stop dev st
  let st := wait_us 19 st
  let st := if addr ≠ cfg.pmw3360_Motion_Burst then
      { st with motion_bursting := false } else st
  (rcv, { st with ops := st.ops ++ [RegOp.read addr rcv] })

/-- Source: `void pmw3360_reg_write(uint8_t addr, uint8_t data)`. -/
def pmw3360_reg_write {σ : Type} (dev : Sensor σ) (addr data : Nat)
    (st : State σ) : State σ :=
  let st := spi_start dev st
  let snd := [addr ||| 0x80, data]
  let st := (spim_start dev snd 0 st).2
  let st := wait_us 35 st
  let st := spi_stop dev st
  let st := wait_us 180 st
  { st with ops := st.ops ++ [RegOp.write addr data] }

/-- Source: `uint8_t pmw3360_cpi_get(void)`. -/
def pmw3360_cpi_get {σ : Type} (cfg : Config) (dev : Sensor σ)
    (st : State σ) : Nat × State σ :=
  pmw3360_reg_read cfg dev cfg.pmw3360_Config1 st

/-- Source: `void pmw3360_cpi_set(uint8_t cpi)`. -/
def pmw3360_cpi_set {σ : Type} (cfg : Config) (dev : Sensor σ) (cpi : Nat)
    (st : State σ) : State σ :=
  let cpi := if cpi > cfg.pmw3360_MAXCPI then cfg.pmw3360_MAXCPI else cpi
  pmw3360_reg_write dev cfg.pmw3360_Config1 cpi st

/-- Source: `void pmw3360_scan_perf_task(void)`.  The `dprintf` line, compiled
under `CONSOLE_ENABLE`, goes to the `console` log. -/
def pmw3360_scan_perf_task {σ : Type} (cfg : Config) (st : State σ) : State σ :=
  let st := { st with pmw3360_scan_count := to_uint32 (st.pmw3360_scan_count + 1) }
  let now := timer_read32 st
  if TIMER_DIFF_32 now st.pmw3360_timer > 1000 then
    let st := if cfg.CONSOLE_ENABLE then
        { st with console := st.console ++ [st.pmw3360_scan_count] } else st
    let st := { st with pmw3360_last_count := st.pmw3360_scan_count }
    let st := { st with pmw3360_scan_count := 0 }
    { st with pmw3360_timer := now }
  else st

/-- Source: `uint32_t pmw3360_scan_rate_get(void)`. -/
def pmw3360_scan_rate_get {σ : Type} (st : State σ) : Nat × State σ :=
  (st.pmw3360_last_count, st)

/-- The block `#ifdef DEBUG_PMW3360_SCAN_RATE` / `pmw3360_scan_perf_task();` /
`#endif` that opens both motion reads. -/
def scan_rate_hook {σ : Type} (cfg : Config) (st : State σ) : State σ :=
  if cfg.DEBUG_PMW3360_SCAN_RATE then pmw3360_scan_perf_task cfg st else st

/-- Source: `bool pmw3360_motion_read(pmw3360_motion_t *d)`.  The sample `d`
points to is passed in and returned. -/
def pmw3360_motion_read {σ : Type} (cfg : Config) (dev : Sensor σ)
    (d : pmw3360_motion_t) (st : State σ) : Bool × pmw3360_motion_t × State σ :=
  let st := scan_rate_hook cfg st
  let r := pmw3360_reg_read cfg dev cfg.pmw3360_Motion st
  let mot := r.1
  let st := r.2
  if mot &&& 0x88 ≠ 0x80 then
    (false, d, st)
  else
    let r := pmw3360_reg_read cfg dev cfg.pmw3360_Delta_X_L st
    let d := { d with x := to_int16 (Int.ofNat r.1) }
    let st := r.2
    let r := pmw3360_reg_read cfg dev cfg.pmw3360_Delta_X_H st
    let d := { d with x := to_int16 (Int.lor d.x (Int.ofNat (r.1 <<< 8))) }
    let st := r.2
    let r := pmw3360_reg_read cfg dev cfg.pmw3360_Delta_Y_L st
    let d := { d with y := to_int16 (Int.ofNat r.1) }
    let st := r.2
    let r := pmw3360_reg_read cfg dev cfg.pmw3360_Delta_Y_H st
    let d := { d with y := to_int16 (Int.lor d.y (Int.ofNat (r.1 <<< 8))) }
    let st := r.2
    (true, d, st)

/-- The block `if (!motion_bursting) { pmw3360_reg_write(pmw3360_Motion_Burst, 0);
motion_bursting = true; }` of `pmw3360_motion_burst`: "Start motion burst if
motion burst mode is not started." -/
def burst_enter {σ : Type} (cfg : Config) (dev : Sensor σ) (st : State σ) : State σ :=
  if ¬ st.motion_bursting then
    let st := pmw3360_reg_write dev cfg.pmw3360_Motion_Burst 0 st
    { st with motion_bursting := true }
  else st

/-- Source: `bool pmw3360_motion_burst(pmw3360_motion_t *d)`.  The receive
buffer `data` starts as six `0xFF` bytes and is filled by the transfer. -/
def pmw3360_motion_burst {σ : Type} (cfg : Config) (dev : Sensor σ)
    (d : pmw3360_motion_t) (st : State σ) : Bool × pmw3360_motion_t × State σ :=
  let st := scan_rate_hook cfg st
  let st := burst_enter cfg dev st
  let st := spi_start dev st
  let snd := cfg.pmw3360_Motion_Burst
  let st := (spim_start dev [snd] 0 st).2
  let st := wait_us 35 st
  let r := spim_start dev [] 6 st
  let data := r.1
  let st := r.2
  let st := (spim_start dev [] 0 st).2
  let st := (spim_start dev [] 0 st).2
  let d := { d with x := to_int16 (Int.ofNat (data.getD 2 0xFF)) }
  let d := { d with x := to_int16 (Int.lor d.x (Int.ofNat (data.getD 3 0xFF <<< 8))) }
  let d := { d with y := to_int16 (Int.ofNat (data.getD 4 0xFF)) }
  let d := { d with y := to_int16 (Int.lor d.y (Int.ofNat (data.getD 5 0xFF <<< 8))) }
  let st := spi_stop dev st
  let st := wait_us 1 st
  (true, d, st)

/-- Source: `bool pmw3360_init(void)`. -/
def pmw3360_init {σ : Type} (cfg : Config) (dev : Sensor σ)
    (st : State σ) : Bool × State σ :=
  let st := spim_init st
  let st := setPinOutput st
  let st := spi_start dev st
  let st := pmw3360_reg_write dev cfg.pmw3360_Power_Up_Reset 0x5a st
  let st := wait_ms 50 st
  let st := (pmw3360_reg_read cfg dev cfg.pmw3360_Motion st).2
  let st := (pmw3360_reg_read cfg dev cfg.pmw3360_Delta_X_L st).2
  let st := (pmw3360_reg_read cfg dev cfg.pmw3360_Delta_X_H st).2
  let st := (pmw3360_reg_read cfg dev cfg.pmw3360_Delta_Y_L st).2
  let st := (pmw3360_reg_read cfg dev cfg.pmw3360_Delta_Y_H st).2
  let st := pmw3360_reg_write dev cfg.pmw3360_Config2 0x00 st
  let r := pmw3360_reg_read cfg dev cfg.pmw3360_Product_ID st
  let pid := r.1
  let st := r.2
  let r := pmw3360_reg_read cfg dev cfg.pmw3360_Revision_ID st
  let rev := r.1
  let st := r.2
  let st := spi_stop dev st
  (pid == 0x42 && rev == 0x01, st)

/-- The `for` loop of `pmw3360_srom_upload`: the image bytes in index order,
each sent in a transfer of its own and followed by `wait_us(15)`. -/
def srom_loop {σ : Type} (dev : Sensor σ) : List Nat → State σ → State σ
  | [], st => st
  | b :: rest, st =>
    let st := (spim_start dev [b] 0 st).2
    let st := wait_us 15 st
    srom_loop dev rest st

/-- Source: `void pmw3360_srom_upload(pmw3360_srom_t srom)`.  The image
`srom` is the list of its `srom.len` bytes `srom.data[0 .. len-1]`. -/
def pmw3360_srom_upload {σ : Type} (cfg : Config) (dev : Sensor σ)
    (srom : List Nat) (st : State σ) : State σ :=
  let st := pmw3360_reg_write dev cfg.pmw3360_Config2 0x00 st
  let st := pmw3360_reg_write dev cfg.pmw3360_SROM_Enable 0x1d st
  let st := wait_us 10 st
  let st := pmw3360_reg_write dev cfg.pmw3360_SROM_Enable 0x18 st
  let st := spi_start dev st
  let snd := cfg.pmw3360_SROM_Load_Burst ||| 0x80
  let st := (spim_start dev [snd] 0 st).2
  let st := wait_us 15 st
  let st := srom_loop dev srom st
  let st := spi_stop dev st
  let st := wait_us 200 st
  let r := pmw3360_reg_read cfg dev cfg.pmw3360_SROM_ID st
  let st := { r.2 with pmw3360_srom_id := r.1 }
  let st := pmw3360_reg_write dev cfg.pmw3360_Config2 0x00 st
  wait_ms 10 st

/-- Register map and CPI ceiling of the PMW3360 data sheet, release build
(both switches off): a concrete instance of the header's constants. -/
def datasheet : Config :=
  { pmw3360_Product_ID := 0x00, pmw3360_Revision_ID := 0x01, pmw3360_Motion := 0x02,
    pmw3360_Delta_X_L := 0x03, pmw3360_Delta_X_H := 0x04, pmw3360_Delta_Y_L := 0x05,
    pmw3360_Delta_Y_H := 0x06, pmw3360_Config1 := 0x0f, pmw3360_Config2 := 0x10,
    pmw3360_SROM_Enable := 0x13, pmw3360_SROM_ID := 0x2a, pmw3360_Power_Up_Reset := 0x3a,
    pmw3360_Motion_Burst := 0x50, pmw3360_SROM_Load_Burst := 0x62, pmw3360_MAXCPI := 0x77,
    DEBUG_PMW3360_SCAN_RATE := false, CONSOLE_ENABLE := false }

/-- A sensor that plays back a fixed script: it ignores what it is sent and
yields the bytes of the script in order (`0` once the script is used up). -/
def scripted : Sensor (List Nat) :=
  { ncs := fun s _ => s, mosi := fun s _ => s, miso := fun s => (s.headD 0, s.tail) }

/-- States of the register-file sensor: position in the current frame
(`0` expecting the address byte, `1` expecting the data byte of a write,
`2` anything else), the selected address, and the writes stored so far
(latest first). -/
structure RegFile where
  phase : Nat
  addr : Nat
  mem : List (Nat × Nat)

/-- A sensor that keeps a register file: a frame starts when chip select is
asserted; its first byte selects register `byte mod 128`, with the high bit set
the next byte is stored in that register; a receive yields the stored value of
the selected register (`0` if never written). -/
def regfile : Sensor RegFile :=
  { ncs := fun s _ => { s with phase := 0 },
    mosi := fun s b =>
      if s.phase = 0 then
        (if 128 ≤ b then { s with phase := 1, addr := b % 128 }
         else { s with phase := 2, addr := b % 128 })
      else if s.phase = 1 then { s with phase := 2, mem := (s.addr, b) :: s.mem }
      else s,
    miso := fun s => ((s.mem.lookup s.addr).getD 0, s) }

/-- The `n` calls of `pmw3360_scan_perf_task` issued at the timer readings
`times`, in order. -/
def scan_polls {σ : Type} (cfg : Config) (times : List Nat) (st : State σ) : State σ :=
  times.foldl (fun s t => pmw3360_scan_perf_task cfg { s with clock := t }) st

/-- The register addresses of a configuration are pairwise different (the
header declares them as one enumeration of the sensor's registers). -/
def Config.regs_distinct (cfg : Config) : Prop :=
  [cfg.pmw3360_Product_ID, cfg.pmw3360_Revision_ID, cfg.pmw3360_Motion,
   cfg.pmw3360_Delta_X_L, cfg.pmw3360_Delta_X_H, cfg.pmw3360_Delta_Y_L,
   cfg.pmw3360_Delta_Y_H, cfg.pmw3360_Config1, cfg.pmw3360_Config2,
   cfg.pmw3360_SROM_Enable, cfg.pmw3360_SROM_ID, cfg.pmw3360_Power_Up_Reset,
   cfg.pmw3360_Motion_Burst, cfg.pmw3360_SROM_Load_Burst].Nodup

instance (cfg : Config) : Decidable cfg.regs_distinct := by
  unfold Config.regs_distinct; infer_instance

/-- The register accesses logged between the state `st` and the later state
`st1`. -/
def new_ops {σ : Type} (st st1 : State σ) : List RegOp := st1.ops.drop st.ops.length

/-- The bus transport calls logged between the state `st` and the later state
`st1`. -/
def new_bus {σ : Type} (st st1 : State σ) : List Ev := st1.bus.drop st.bus.length

/-- The bus transport calls of one `pmw3360_reg_write(addr, data)`, in program
order. -/
def write_frame (addr data : Nat) : List Ev :=
  [Ev.spi_start, Ev.spim_start [addr ||| 0x80, data] [], Ev.wait_us 35, Ev.spi_stop,
   Ev.wait_us 180]

/-- The bus transport calls of one `pmw3360_reg_read(addr)` that received the
byte `rcv`, in program order. -/
def read_frame (addr rcv : Nat) : List Ev :=
  [Ev.spi_start, Ev.spim_start [addr &&& 0x7f] [], Ev.wait_us 160,
   Ev.spim_start [] [rcv], Ev.wait_us 1, Ev.spi_stop, Ev.wait_us 19]

/-- A run of `n` consecutive calls `pmw3360_motion_burst(&d)` on the same
sample variable, with no other driver call in between. -/
def burst_calls {σ : Type} (cfg : Config) (dev : Sensor σ) :
    Nat → pmw3360_motion_t → State σ → pmw3360_motion_t × State σ
  | 0, d, st => (d, st)
  | n + 1, d, st =>
    let r := burst_calls cfg dev n d st
    (pmw3360_motion_burst cfg dev r.1 r.2).2

/-- The state `st` with the scan-rate counters (`pmw3360_timer`,
`pmw3360_scan_count`, `pmw3360_last_count`) and the diagnostic console of the
state `c`. -/
def with_counters {σ : Type} (st c : State σ) : State σ :=
  { st with
    pmw3360_timer := c.pmw3360_timer
    pmw3360_scan_count := c.pmw3360_scan_count
    pmw3360_last_count := c.pmw3360_last_count
    console := c.console }

/-- One call of the driver's public interface, with its arguments (the sample
variable of a motion read is given by its value at the call). -/
inductive Call where
  | init : Call
  | srom_upload (srom : List Nat) : Call
  | cpi_get : Call
  | cpi_set (cpi : Nat) : Call
  | motion_read (d : pmw3360_motion_t) : Call
  | motion_burst (d : pmw3360_motion_t) : Call
  | reg_read (addr : Nat) : Call
  | reg_write (addr data : Nat) : Call
  | scan_rate_get : Call
deriving DecidableEq

/-- Whether the call is a `pmw3360_motion_burst`. -/
def Call.is_burst : Call → Bool
  | Call.motion_burst _ => true
  | _ => false

/-- The state after one call of the public interface. -/
def run_call {σ : Type} (cfg : Config) (dev : Sensor σ) : Call → State σ → State σ
  | Call.init, st => (pmw3360_init cfg dev st).2
  | Call.srom_upload srom, st => pmw3360_srom_upload cfg dev srom st
  | Call.cpi_get, st => (pmw3360_cpi_get cfg dev st).2
  | Call.cpi_set cpi, st => pmw3360_cpi_set cfg dev cpi st
  | Call.motion_read d, st => (pmw3360_motion_read cfg dev d st).2.2
  | Call.motion_burst d, st => (pmw3360_motion_burst cfg dev d st).2.2
  | Call.reg_read addr, st => (pmw3360_reg_read cfg dev addr st).2
  | Call.reg_write addr data, st => pmw3360_reg_write dev addr data st
  | Call.scan_rate_get, st => (pmw3360_scan_rate_get st).2

/-- The state after a finite sequence of calls; each call comes with the
reading of the millisecond timer at the time it is made. -/
def run_calls {σ : Type} (cfg : Config) (dev : Sensor σ) (calls : List (Nat × Call))
    (st : State σ) : State σ :=
  calls.foldl (fun s c => run_call cfg dev c.2 { s with clock := c.1 }) st

/-- Relation between a state `s` and a later state `s1` of a run that contains
no burst read in between: the register log has only grown, and the burst flag
is true at `s1` exactly if it was true at `s` and every register read logged
since then was of `pmw3360_Motion_Burst`. -/
def Step {σ : Type} (cfg : Config) (s s1 : State σ) : Prop :=
  ∃ l : List RegOp, s1.ops = s.ops ++ l ∧
    (s1.motion_bursting = true ↔
      s.motion_bursting = true ∧
        ∀ a v : Nat, RegOp.read a v ∈ l → a = cfg.pmw3360_Motion_Burst)

/-- The sensor's side of one `pmw3360_reg_read(addr)`: chip select is asserted,
the byte `addr & 0x7f` is sent, one byte is clocked out, chip select is
released.  Gives the byte the driver receives and the sensor's next state. -/
def sensor_reg_read {σ : Type} (dev : Sensor σ) (s : σ) (addr : Nat) : Nat × σ :=
  let r := dev.miso (dev.mosi (dev.ncs s true) (addr &&& 0x7f))
  (r.1 % 256, dev.ncs r.2 false)

/-- The sensor's side of one `pmw3360_reg_write(addr, data)`: chip select is
asserted, the bytes `addr | 0x80` and `data` are sent, chip select is
released.  Gives the sensor's next state. -/
def sensor_reg_write {σ : Type} (dev : Sensor σ) (s : σ) (addr data : Nat) : σ :=
  dev.ncs (dev.mosi (dev.mosi (dev.ncs s true) (addr ||| 0x80)) data) false

/-- The sensor's side of consecutive register reads of the addresses `addrs`:
the bytes it returns, in order, and its state afterwards. -/
def sensor_reads {σ : Type} (dev : Sensor σ) : σ → List Nat → List Nat × σ
  | s, [] => ([], s)
  | s, a :: rest =>
    let r := sensor_reg_read dev s a
    let t := sensor_reads dev r.2 rest
    (r.1 :: t.1, t.2)

/-- The sensor's side of the streaming transaction of one
`pmw3360_motion_burst`: chip select is asserted, the command byte is sent, six
bytes are clocked out, chip select is released.  Gives the six bytes and the
sensor's next state. -/
def sensor_burst {σ : Type} (dev : Sensor σ) (s : σ) (cmd : Nat) : List Nat × σ :=
  let r := recvBytes dev 6 (dev.mosi (dev.ncs s true) cmd)
  (r.1, dev.ncs r.2 false)

/-- The sensor's side of `n` consecutive streaming transactions: the six byte
responses, in order, and its state afterwards. -/
def sensor_bursts {σ : Type} (dev : Sensor σ) (cmd : Nat) : Nat → σ → List (List Nat) × σ
  | 0, s => ([], s)
  | n + 1, s =>
    let r := sensor_bursts dev cmd n s
    let b := sensor_burst dev r.2 cmd
    (r.1 ++ [b.1], b.2)

/-- The bus transport calls of the streaming transaction of one
`pmw3360_motion_burst` that received the bytes `data`, in program order. -/
def burst_frame (cmd : Nat) (data : List Nat) : List Ev :=
  [Ev.spi_start, Ev.spim_start [cmd] [], Ev.wait_us 35, Ev.spim_start [] data,
   Ev.spim_start [] [], Ev.spim_start [] [], Ev.spi_stop, Ev.wait_us 1]

/-! ## Bus transport: shared lemmas -/

theorem spi_start_ops {σ : Type} (dev : Sensor σ) (st : State σ) :
    (spi_start dev st).ops = st.ops := rfl

theorem spi_stop_ops {σ : Type} (dev : Sensor σ) (st : State σ) :
    (spi_stop dev st).ops = st.ops := rfl

theorem wait_us_ops {σ : Type} (n : Nat) (st : State σ) : (wait_us n st).ops = st.ops := rfl

theorem wait_ms_ops {σ : Type} (n : Nat) (st : State σ) : (wait_ms n st).ops = st.ops := rfl

theorem spim_start_ops {σ : Type} (dev : Sensor σ) (tx : List Nat) (n : Nat)
    (st : State σ) : (spim_start dev tx n st).2.ops = st.ops := rfl

theorem spim_init_ops {σ : Type} (st : State σ) : (spim_init st).ops = st.ops := rfl

theorem setPinOutput_ops {σ : Type} (st : State σ) : (setPinOutput st).ops = st.ops := rfl

theorem spim_init_bus {σ : Type} (st : State σ) :
    (spim_init st).bus = st.bus ++ [Ev.spim_init] := rfl

theorem setPinOutput_bus {σ : Type} (st : State σ) :
    (setPinOutput st).bus = st.bus ++ [Ev.setPinOutput] := rfl

theorem spi_start_flag {σ : Type} (dev : Sensor σ) (st : State σ) :
    (spi_start dev st).motion_bursting = st.motion_bursting := rfl

theorem spi_stop_flag {σ : Type} (dev : Sensor σ) (st : State σ) :
    (spi_stop dev st).motion_bursting = st.motion_bursting := rfl

theorem wait_us_flag {σ : Type} (n : Nat) (st : State σ) :
    (wait_us n st).motion_bursting = st.motion_bursting := rfl

theorem wait_ms_flag {σ : Type} (n : Nat) (st : State σ) :
    (wait_ms n st).motion_bursting = st.motion_bursting := rfl

theorem spim_start_flag {σ : Type} (dev : Sensor σ) (tx : List Nat) (n : Nat)
    (st : State σ) : (spim_start dev tx n st).2.motion_bursting = st.motion_bursting := rfl

theorem spi_start_bus {σ : Type} (dev : Sensor σ) (st : State σ) :
    (spi_start dev st).bus = st.bus ++ [Ev.spi_start] := rfl

theorem spi_stop_bus {σ : Type} (dev : Sensor σ) (st : State σ) :
    (spi_stop dev st).bus = st.bus ++ [Ev.spi_stop] := rfl

theorem wait_us_bus {σ : Type} (n : Nat) (st : State σ) :
    (wait_us n st).bus = st.bus ++ [Ev.wait_us n] := rfl

theorem wait_ms_bus {σ : Type} (n : Nat) (st : State σ) :
    (wait_ms n st).bus = st.bus ++ [Ev.wait_ms n] := rfl

theorem spim_start_bus {σ : Type} (dev : Sensor σ) (tx : List Nat) (n : Nat)
    (st : State σ) :
    (spim_start dev tx n st).2.bus = st.bus ++ [Ev.spim_start tx (spim_start dev tx n st).1] :=
  rfl

/-! ## Register access: shared lemmas -/

theorem reg_read_bus {σ : Type} (cfg : Config) (dev : Sensor σ) (addr : Nat)
    (st : State σ) :
    (pmw3360_reg_read cfg dev addr st).2.bus = st.bus ++
      [Ev.spi_start, Ev.spim_start [addr &&& 0x7f] [], Ev.wait_us 160,
       Ev.spim_start [] [(pmw3360_reg_read cfg dev addr st).1], Ev.wait_us 1,
       Ev.spi_stop, Ev.wait_us 19] := by
  by_cases h : addr = cfg.pmw3360_Motion_Burst <;>
    simp [pmw3360_reg_read, spim_start, recvBytes, spi_start, spi_stop, wait_us, h]

theorem reg_read_ops {σ : Type} (cfg : Config) (dev : Sensor σ) (addr : Nat)
    (st : State σ) :
    (pmw3360_reg_read cfg dev addr st).2.ops =
      st.ops ++ [RegOp.read addr (pmw3360_reg_read cfg dev addr st).1] := by
  by_cases h : addr = cfg.pmw3360_Motion_Burst <;>
    simp [pmw3360_reg_read, spim_start, recvBytes, spi_start, spi_stop, wait_us, h]

theorem reg_read_flag {σ : Type} (cfg : Config) (dev : Sensor σ) (addr : Nat)
    (st : State σ) :
    (pmw3360_reg_read cfg dev addr st).2.motion_bursting =
      if addr ≠ cfg.pmw3360_Motion_Burst then false else st.motion_bursting := by
  by_cases h : addr = cfg.pmw3360_Motion_Burst <;>
    simp [pmw3360_reg_read, spim_start, recvBytes, spi_start, spi_stop, wait_us, h]

theorem reg_write_bus {σ : Type} (dev : Sensor σ) (addr data : Nat) (st : State σ) :
    (pmw3360_reg_write dev addr data st).bus = st.bus ++
      [Ev.spi_start, Ev.spim_start [addr ||| 0x80, data] [], Ev.wait_us 35,
       Ev.spi_stop, Ev.wait_us 180] := by
  simp [pmw3360_reg_write, spim_start, recvBytes, spi_start, spi_stop, wait_us]

theorem reg_write_ops {σ : Type} (dev : Sensor σ) (addr data : Nat) (st : State σ) :
    (pmw3360_reg_write dev addr data st).ops = st.ops ++ [RegOp.write addr data] := by
  simp [pmw3360_reg_write, spim_start, recvBytes, spi_start, spi_stop, wait_us]

theorem reg_write_flag {σ : Type} (dev : Sensor σ) (addr data : Nat) (st : State σ) :
    (pmw3360_reg_write dev addr data st).motion_bursting = st.motion_bursting := by
  simp [pmw3360_reg_write, spim_start, recvBytes, spi_start, spi_stop, wait_us]

theorem reg_read_val {σ : Type} (cfg : Config) (dev : Sensor σ) (addr : Nat)
    (st : State σ) :
    (pmw3360_reg_read cfg dev addr st).1 =
      (dev.miso (dev.mosi (dev.ncs st.sensor true) (addr &&& 0x7f))).1 % 256 := by
  simp [pmw3360_reg_read, spim_start, recvBytes, spi_start, wait_us]

theorem perf_ops {σ : Type} (cfg : Config) (st : State σ) :
    (pmw3360_scan_perf_task cfg st).ops = st.ops := by
  unfold pmw3360_scan_perf_task
  by_cases h : cfg.CONSOLE_ENABLE <;> simp only [h] <;> split <;> simp

theorem perf_bus {σ : Type} (cfg : Config) (st : State σ) :
    (pmw3360_scan_perf_task cfg st).bus = st.bus := by
  unfold pmw3360_scan_perf_task
  by_cases h : cfg.CONSOLE_ENABLE <;> simp only [h] <;> split <;> simp

theorem perf_sensor {σ : Type} (cfg : Config) (st : State σ) :
    (pmw3360_scan_perf_task cfg st).sensor = st.sensor := by
  unfold pmw3360_scan_perf_task
  by_cases h : cfg.CONSOLE_ENABLE <;> simp only [h] <;> split <;> simp

theorem perf_flag {σ : Type} (cfg : Config) (st : State σ) :
    (pmw3360_scan_perf_task cfg st).motion_bursting = st.motion_bursting := by
  unfold pmw3360_scan_perf_task
  by_cases h : cfg.CONSOLE_ENABLE <;> simp only [h] <;> split <;> simp

theorem hook_ops {σ : Type} (cfg : Config) (st : State σ) :
    (scan_rate_hook cfg st).ops = st.ops := by
  unfold scan_rate_hook; split
  · exact perf_ops cfg st
  · rfl

theorem hook_bus {σ : Type} (cfg : Config) (st : State σ) :
    (scan_rate_hook cfg st).bus = st.bus := by
  unfold scan_rate_hook; split
  · exact perf_bus cfg st
  · rfl

theorem hook_sensor {σ : Type} (cfg : Config) (st : State σ) :
    (scan_rate_hook cfg st).sensor = st.sensor := by
  unfold scan_rate_hook; split
  · exact perf_sensor cfg st
  · rfl

theorem hook_flag {σ : Type} (cfg : Config) (st : State σ) :
    (scan_rate_hook cfg st).motion_bursting = st.motion_bursting := by
  unfold scan_rate_hook; split
  · exact perf_flag cfg st
  · rfl

theorem new_ops_append {σ : Type} (st st1 : State σ) (l : List RegOp)
    (h : st1.ops = st.ops ++ l) : new_ops st st1 = l := by
  simp [new_ops, h]

theorem new_bus_append {σ : Type} (st st1 : State σ) (l : List Ev)
    (h : st1.bus = st.bus ++ l) : new_bus st st1 = l := by
  simp [new_bus, h]

/-! ## Motion sample reconstruction: shared lemmas -/

theorem to_int16_byte (b : Nat) (h : b < 256) : to_int16 (Int.ofNat b) = Int.ofNat b := by
  unfold to_int16
  simp only [Int.ofNat_eq_coe]
  omega

theorem lor_shift8 (lo hi : Nat) (h : lo < 256) : lo ||| hi <<< 8 = lo + 256 * hi := by
  have h8 : lo < 2 ^ 8 := by norm_num; exact h
  rw [Nat.lor_comm, Nat.shiftLeft_eq, Nat.mul_comm hi, ← Nat.mul_add_lt_is_or h8 hi]
  omega

/-- The two statements `v = lo; v |= hi << 8;` on an `int16_t` lvalue, for
bytes `lo` and `hi`: the result is the 16 bit word `lo | hi << 8` read as a
two's complement number. -/
theorem delta_value (lo hi : Nat) (h : lo < 256) :
    to_int16 (Int.lor (to_int16 (Int.ofNat lo)) (Int.ofNat (hi <<< 8))) =
      to_int16 (Int.ofNat (lo ||| hi <<< 8)) := by
  rw [to_int16_byte lo h]
  rfl

theorem to_int16_word (lo hi : Nat) (hl : lo < 256) (hh : hi < 256) :
    to_int16 (Int.ofNat (lo ||| hi <<< 8)) =
      if 0x80 ≤ hi then (lo : Int) + 256 * hi - 65536 else (lo : Int) + 256 * hi := by
  rw [lor_shift8 lo hi hl]
  unfold to_int16
  simp only [Int.ofNat_eq_coe]
  split <;> push_cast <;> omega

/-! ## Discrete motion read: shared lemmas -/

theorem motion_read_idle {σ : Type} (cfg : Config) (dev : Sensor σ)
    (d : pmw3360_motion_t) (st : State σ)
    (h : (pmw3360_reg_read cfg dev cfg.pmw3360_Motion (scan_rate_hook cfg st)).1 &&& 0x88
      ≠ 0x80) :
    pmw3360_motion_read cfg dev d st =
      (false, d, (pmw3360_reg_read cfg dev cfg.pmw3360_Motion (scan_rate_hook cfg st)).2) := by
  simp [pmw3360_motion_read, h]

theorem motion_read_ret {σ : Type} (cfg : Config) (dev : Sensor σ)
    (d : pmw3360_motion_t) (st : State σ) :
    (pmw3360_motion_read cfg dev d st).1 =
      decide ((pmw3360_reg_read cfg dev cfg.pmw3360_Motion
        (scan_rate_hook cfg st)).1 &&& 0x88 = 0x80) := by
  by_cases h : (pmw3360_reg_read cfg dev cfg.pmw3360_Motion
      (scan_rate_hook cfg st)).1 &&& 0x88 = 0x80 <;>
    simp [pmw3360_motion_read, h]

theorem reg_read_flag_stays_false {σ : Type} (cfg : Config) (dev : Sensor σ)
    (addr : Nat) (st : State σ) (h : st.motion_bursting = false) :
    (pmw3360_reg_read cfg dev addr st).2.motion_bursting = false := by
  rw [reg_read_flag]; split <;> simp [h]

theorem motion_read_flag {σ : Type} (cfg : Config) (dev : Sensor σ)
    (d : pmw3360_motion_t) (st : State σ)
    (hreg : cfg.pmw3360_Motion ≠ cfg.pmw3360_Motion_Burst) :
    (pmw3360_motion_read cfg dev d st).2.2.motion_bursting = false := by
  have h1 : (pmw3360_reg_read cfg dev cfg.pmw3360_Motion
      (scan_rate_hook cfg st)).2.motion_bursting = false := by
    rw [reg_read_flag]; simp [hreg]
  by_cases h : (pmw3360_reg_read cfg dev cfg.pmw3360_Motion (scan_rate_hook cfg st)).1
      &&& 0x88 = 0x80
  · simp only [pmw3360_motion_read, h, ne_eq, not_true_eq_false, if_false]
    exact reg_read_flag_stays_false _ _ _ _ (reg_read_flag_stays_false _ _ _ _
      (reg_read_flag_stays_false _ _ _ _ (reg_read_flag_stays_false _ _ _ _ h1)))
  · rw [motion_read_idle cfg dev d st h]
    exact h1

/-! ## Burst read and firmware upload: shared lemmas -/

theorem recvBytes_length {σ : Type} (dev : Sensor σ) (n : Nat) (s : σ) :
    (recvBytes dev n s).1.length = n := by
  induction n generalizing s with
  | zero => rfl
  | succ k ih => simp [recvBytes, ih]

theorem recvBytes_lt {σ : Type} (dev : Sensor σ) (n : Nat) (s : σ) :
    ∀ b ∈ (recvBytes dev n s).1, b < 256 := by
  induction n generalizing s with
  | zero => simp [recvBytes]
  | succ k ih =>
    intro b hb
    simp only [recvBytes, List.mem_cons] at hb
    rcases hb with hb | hb
    · rw [hb]; exact Nat.mod_lt _ (by norm_num)
    · exact ih _ b hb

theorem burst_ret {σ : Type} (cfg : Config) (dev : Sensor σ) (d : pmw3360_motion_t)
    (st : State σ) : (pmw3360_motion_burst cfg dev d st).1 = true := rfl

theorem spim_start_zero {σ : Type} (dev : Sensor σ) (tx : List Nat) (st : State σ) :
    (spim_start dev tx 0 st).1 = [] := rfl

theorem burst_enter_flag {σ : Type} (cfg : Config) (dev : Sensor σ) (st : State σ) :
    (burst_enter cfg dev st).motion_bursting = true := by
  unfold burst_enter
  by_cases h : st.motion_bursting = true <;> simp [h]

theorem burst_enter_ops {σ : Type} (cfg : Config) (dev : Sensor σ) (st : State σ) :
    (burst_enter cfg dev st).ops = st.ops ++
      (if st.motion_bursting then [] else [RegOp.write cfg.pmw3360_Motion_Burst 0]) := by
  unfold burst_enter
  by_cases h : st.motion_bursting = true <;> simp [h, reg_write_ops]

theorem burst_enter_bus {σ : Type} (cfg : Config) (dev : Sensor σ) (st : State σ) :
    (burst_enter cfg dev st).bus = st.bus ++
      (if st.motion_bursting then []
       else [Ev.spi_start, Ev.spim_start [cfg.pmw3360_Motion_Burst ||| 0x80, 0] [],
             Ev.wait_us 35, Ev.spi_stop, Ev.wait_us 180]) := by
  unfold burst_enter
  by_cases h : st.motion_bursting = true <;> simp [h, reg_write_bus]

theorem burst_flag {σ : Type} (cfg : Config) (dev : Sensor σ) (d : pmw3360_motion_t)
    (st : State σ) : (pmw3360_motion_burst cfg dev d st).2.2.motion_bursting = true := by
  simp only [pmw3360_motion_burst, wait_us_flag, spi_stop_flag, spim_start_flag,
    spi_start_flag, burst_enter_flag]

theorem burst_ops {σ : Type} (cfg : Config) (dev : Sensor σ) (d : pmw3360_motion_t)
    (st : State σ) :
    (pmw3360_motion_burst cfg dev d st).2.2.ops = st.ops ++
      (if st.motion_bursting then []
       else [RegOp.write cfg.pmw3360_Motion_Burst 0]) := by
  simp only [pmw3360_motion_burst, wait_us_ops, spi_stop_ops, spim_start_ops,
    spi_start_ops, burst_enter_ops, hook_ops, hook_flag]

theorem burst_bus {σ : Type} (cfg : Config) (dev : Sensor σ) (d : pmw3360_motion_t)
    (st : State σ) :
    ∃ data : List Nat, data.length = 6 ∧ (∀ b ∈ data, b < 256) ∧
      (pmw3360_motion_burst cfg dev d st).2.2.bus = st.bus ++
        ((if st.motion_bursting then []
          else [Ev.spi_start, Ev.spim_start [cfg.pmw3360_Motion_Burst ||| 0x80, 0] [],
                Ev.wait_us 35, Ev.spi_stop, Ev.wait_us 180]) ++
         [Ev.spi_start, Ev.spim_start [cfg.pmw3360_Motion_Burst] [], Ev.wait_us 35,
          Ev.spim_start [] data, Ev.spim_start [] [], Ev.spim_start [] [],
          Ev.spi_stop, Ev.wait_us 1]) ∧
      (pmw3360_motion_burst cfg dev d st).2.1 =
        { x := to_int16 (Int.lor (to_int16 (Int.ofNat (data.getD 2 0xFF)))
                (Int.ofNat (data.getD 3 0xFF <<< 8))),
          y := to_int16 (Int.lor (to_int16 (Int.ofNat (data.getD 4 0xFF)))
                (Int.ofNat (data.getD 5 0xFF <<< 8))) } := by
  refine ⟨(spim_start dev [] 6 (wait_us 35 (spim_start dev [cfg.pmw3360_Motion_Burst] 0
    (spi_start dev (burst_enter cfg dev (scan_rate_hook cfg st)))).2)).1,
    recvBytes_length dev 6 _, recvBytes_lt dev 6 _, ?hbus, rfl⟩
  simp only [pmw3360_motion_burst, wait_us_bus, spi_stop_bus, spim_start_bus,
    spi_start_bus, burst_enter_bus, hook_bus, hook_flag, spim_start_zero,
    List.append_assoc, List.singleton_append, List.cons_append, List.nil_append]

theorem srom_loop_bus {σ : Type} (dev : Sensor σ) (srom : List Nat) (st : State σ) :
    (srom_loop dev srom st).bus =
      st.bus ++ srom.flatMap (fun b => [Ev.spim_start [b] [], Ev.wait_us 15]) := by
  induction srom generalizing st with
  | nil => simp [srom_loop]
  | cons b rest ih =>
    simp only [srom_loop, ih, wait_us_bus, spim_start_bus, List.flatMap_cons,
      List.append_assoc, List.singleton_append, List.cons_append, List.nil_append]
    rfl

theorem srom_loop_ops {σ : Type} (dev : Sensor σ) (srom : List Nat) (st : State σ) :
    (srom_loop dev srom st).ops = st.ops := by
  induction srom generalizing st with
  | nil => rfl
  | cons b rest ih => simp only [srom_loop, ih, wait_us_ops, spim_start_ops]

theorem srom_frames_length (srom : List Nat) :
    (srom.flatMap (fun b => [Ev.spim_start [b] [], Ev.wait_us 15])).length
      = 2 * srom.length := by
  induction srom with
  | nil => rfl
  | cons b rest ih => simp only [List.flatMap_cons, List.length_append, ih,
      List.length_cons, List.length_nil]; omega

theorem srom_frames_get (srom : List Nat) (i : Nat) (h : i < srom.length) :
    (srom.flatMap (fun b => [Ev.spim_start [b] [], Ev.wait_us 15]))[2 * i]? =
        some (Ev.spim_start [srom.getD i 0] []) ∧
    (srom.flatMap (fun b => [Ev.spim_start [b] [], Ev.wait_us 15]))[2 * i + 1]? =
        some (Ev.wait_us 15) := by
  induction srom generalizing i with
  | nil => simp at h
  | cons b rest ih =>
    cases i with
    | zero => simp
    | succ k =>
      have hk : k < rest.length := by simpa using h
      have e1 : 2 * (k + 1) = 2 * k + 2 := by ring
      have e2 : 2 * k + 2 + 1 = 2 * k + 1 + 2 := by ring
      rw [e1, e2]
      simpa using ih k hk

/-! ## Scan rate counters: shared lemmas -/

theorem perf_open {σ : Type} (cfg : Config) (st : State σ)
    (h : TIMER_DIFF_32 (to_uint32 st.clock) st.pmw3360_timer ≤ 1000) :
    pmw3360_scan_perf_task cfg st =
      { st with pmw3360_scan_count := to_uint32 (st.pmw3360_scan_count + 1) } := by
  have h2 : ¬ TIMER_DIFF_32 (to_uint32 st.clock) st.pmw3360_timer > 1000 := Nat.not_lt.mpr h
  simp [pmw3360_scan_perf_task, timer_read32, h2]

theorem perf_close {σ : Type} (cfg : Config) (st : State σ)
    (h : TIMER_DIFF_32 (to_uint32 st.clock) st.pmw3360_timer > 1000) :
    (pmw3360_scan_perf_task cfg st).pmw3360_last_count
        = to_uint32 (st.pmw3360_scan_count + 1) ∧
    (pmw3360_scan_perf_task cfg st).pmw3360_scan_count = 0 ∧
    (pmw3360_scan_perf_task cfg st).pmw3360_timer = to_uint32 st.clock := by
  by_cases hc : cfg.CONSOLE_ENABLE = true <;>
    simp [pmw3360_scan_perf_task, timer_read32, h, hc]

theorem timer_diff_offset (t0 d : Nat) (hd : d < 4294967296) :
    TIMER_DIFF_32 (to_uint32 (t0 + d)) t0 = d := by
  unfold TIMER_DIFF_32 to_uint32
  omega

theorem scan_polls_append {σ : Type} (cfg : Config) (ts us : List Nat) (st : State σ) :
    scan_polls cfg (ts ++ us) st = scan_polls cfg us (scan_polls cfg ts st) := by
  simp [scan_polls, List.foldl_append]

theorem scan_polls_open {σ : Type} (cfg : Config) (ds : List Nat) (st : State σ)
    (hds : ∀ d ∈ ds, d ≤ 1000) (hc : st.pmw3360_scan_count < 4294967296) :
    (scan_polls cfg (ds.map (fun d => st.pmw3360_timer + d)) st).pmw3360_timer
        = st.pmw3360_timer ∧
    (scan_polls cfg (ds.map (fun d => st.pmw3360_timer + d)) st).pmw3360_scan_count
        = (st.pmw3360_scan_count + ds.length) % 4294967296 ∧
    (scan_polls cfg (ds.map (fun d => st.pmw3360_timer + d)) st).pmw3360_last_count
        = st.pmw3360_last_count := by
  induction ds generalizing st with
  | nil => exact ⟨rfl, (Nat.mod_eq_of_lt hc).symm, rfl⟩
  | cons d rest ih =>
    have hd : d ≤ 1000 := hds d (List.mem_cons_self d rest)
    have hstep : pmw3360_scan_perf_task cfg { st with clock := st.pmw3360_timer + d } =
        { st with clock := st.pmw3360_timer + d,
                  pmw3360_scan_count := to_uint32 (st.pmw3360_scan_count + 1) } := by
      rw [perf_open]
      show TIMER_DIFF_32 (to_uint32 (st.pmw3360_timer + d)) st.pmw3360_timer ≤ 1000
      rw [timer_diff_offset _ _ (by omega)]
      exact hd
    have hrest := ih
      { st with
        clock := st.pmw3360_timer + d
        pmw3360_scan_count := to_uint32 (st.pmw3360_scan_count + 1) }
      (fun x hx => hds x (List.mem_cons_of_mem d hx))
      (Nat.mod_lt _ (by norm_num))
    have hunfold : scan_polls cfg ((d :: rest).map (fun d => st.pmw3360_timer + d)) st =
        scan_polls cfg (rest.map (fun d => st.pmw3360_timer + d))
          (pmw3360_scan_perf_task cfg { st with clock := st.pmw3360_timer + d }) := by
      simp [scan_polls]
    rw [hunfold, hstep]
    refine ⟨hrest.1, ?_, hrest.2.2⟩
    rw [hrest.2.1]
    simp only [to_uint32, List.length_cons]
    omega

theorem burst_calls_succ {σ : Type} (cfg : Config) (dev : Sensor σ) (n : Nat)
    (d : pmw3360_motion_t) (st : State σ) :
    burst_calls cfg dev (n + 1) d st =
      (pmw3360_motion_burst cfg dev (burst_calls cfg dev n d st).1
        (burst_calls cfg dev n d st).2).2 := rfl

theorem burst_calls_run {σ : Type} (cfg : Config) (dev : Sensor σ) (k : Nat)
    (d : pmw3360_motion_t) (st : State σ) :
    (burst_calls cfg dev (k + 1) d st).2.motion_bursting = true ∧
    (burst_calls cfg dev (k + 1) d st).2.ops = st.ops ++
      (if st.motion_bursting then [] else [RegOp.write cfg.pmw3360_Motion_Burst 0]) := by
  induction k with
  | zero =>
    rw [burst_calls_succ]
    exact ⟨burst_flag _ _ _ _, burst_ops _ _ _ _⟩
  | succ j ih =>
    rw [burst_calls_succ]
    refine ⟨burst_flag _ _ _ _, ?_⟩
    rw [burst_ops, ih.1, ih.2]
    simp

theorem timer_diff_int (now timer : Nat) :
    ((TIMER_DIFF_32 (to_uint32 now) timer : Nat) : Int) =
      ((now : Int) - (timer : Int)) % 4294967296 := by
  unfold TIMER_DIFF_32 to_uint32
  omega

theorem perf_with_counters {σ : Type} (cfg : Config) (st : State σ) :
    pmw3360_scan_perf_task cfg st = with_counters st (pmw3360_scan_perf_task cfg st) := by
  unfold pmw3360_scan_perf_task
  by_cases h : cfg.CONSOLE_ENABLE = true <;> simp only [h] <;> split <;> rfl

theorem with_counters_self {σ : Type} (st : State σ) : with_counters st st = st := rfl

theorem reg_read_with_counters {σ : Type} (cfg : Config) (dev : Sensor σ) (addr : Nat)
    (st c : State σ) :
    pmw3360_reg_read cfg dev addr (with_counters st c) =
      ((pmw3360_reg_read cfg dev addr st).1,
       with_counters (pmw3360_reg_read cfg dev addr st).2 c) := by
  unfold pmw3360_reg_read
  by_cases h : addr = cfg.pmw3360_Motion_Burst
  · simp only [h, ne_eq, not_true_eq_false, if_false]
    rfl
  · simp only [h, ne_eq, not_false_eq_true, if_true]
    rfl

theorem reg_write_with_counters {σ : Type} (dev : Sensor σ) (addr data : Nat)
    (st c : State σ) :
    pmw3360_reg_write dev addr data (with_counters st c) =
      with_counters (pmw3360_reg_write dev addr data st) c := rfl

theorem motion_read_with_counters {σ : Type} (cfg : Config) (dev : Sensor σ)
    (d : pmw3360_motion_t) (st c : State σ) (hN : cfg.DEBUG_PMW3360_SCAN_RATE = false) :
    pmw3360_motion_read cfg dev d (with_counters st c) =
      ((pmw3360_motion_read cfg dev d st).1, (pmw3360_motion_read cfg dev d st).2.1,
       with_counters (pmw3360_motion_read cfg dev d st).2.2 c) := by
  unfold pmw3360_motion_read scan_rate_hook
  simp only [hN, Bool.false_eq_true, if_false, reg_read_with_counters]
  by_cases h : (pmw3360_reg_read cfg dev cfg.pmw3360_Motion st).1 &&& 0x88 = 0x80
  · simp only [h, ne_eq, not_true_eq_false, if_false]
  · simp only [h, ne_eq, not_false_eq_true, if_true]

theorem burst_enter_with_counters {σ : Type} (cfg : Config) (dev : Sensor σ)
    (st c : State σ) :
    burst_enter cfg dev (with_counters st c) = with_counters (burst_enter cfg dev st) c := by
  unfold burst_enter
  by_cases h : st.motion_bursting = true
  · have h2 : (with_counters st c).motion_bursting = true := h
    simp only [h, h2, not_true_eq_false, if_false]
  · have h2 : ¬ (with_counters st c).motion_bursting = true := h
    simp only [h, h2, not_false_eq_true, if_true]
    rfl

theorem motion_burst_with_counters {σ : Type} (cfg : Config) (dev : Sensor σ)
    (d : pmw3360_motion_t) (st c : State σ) (hN : cfg.DEBUG_PMW3360_SCAN_RATE = false) :
    pmw3360_motion_burst cfg dev d (with_counters st c) =
      ((pmw3360_motion_burst cfg dev d st).1, (pmw3360_motion_burst cfg dev d st).2.1,
       with_counters (pmw3360_motion_burst cfg dev d st).2.2 c) := by
  unfold pmw3360_motion_burst scan_rate_hook
  simp only [hN, Bool.false_eq_true, if_false, burst_enter_with_counters]
  rfl

theorem motion_read_counters {σ : Type} (cfg : Config) (dev : Sensor σ)
    (d : pmw3360_motion_t) (st : State σ) (hN : cfg.DEBUG_PMW3360_SCAN_RATE = false) :
    with_counters (pmw3360_motion_read cfg dev d st).2.2 st =
      (pmw3360_motion_read cfg dev d st).2.2 := by
  have h := motion_read_with_counters cfg dev d st st hN
  rw [with_counters_self] at h
  exact (congrArg (fun r => r.2.2) h).symm

theorem motion_burst_counters {σ : Type} (cfg : Config) (dev : Sensor σ)
    (d : pmw3360_motion_t) (st : State σ) (hN : cfg.DEBUG_PMW3360_SCAN_RATE = false) :
    with_counters (pmw3360_motion_burst cfg dev d st).2.2 st =
      (pmw3360_motion_burst cfg dev d st).2.2 := by
  have h := motion_burst_with_counters cfg dev d st st hN
  rw [with_counters_self] at h
  exact (congrArg (fun r => r.2.2) h).symm

theorem motion_read_debug {σ : Type} (cfg : Config) (dev : Sensor σ)
    (d : pmw3360_motion_t) (st : State σ) :
    pmw3360_motion_read { cfg with DEBUG_PMW3360_SCAN_RATE := true } dev d st =
      pmw3360_motion_read { cfg with DEBUG_PMW3360_SCAN_RATE := false } dev d
        (pmw3360_scan_perf_task cfg st) := rfl

theorem motion_burst_debug {σ : Type} (cfg : Config) (dev : Sensor σ)
    (d : pmw3360_motion_t) (st : State σ) :
    pmw3360_motion_burst { cfg with DEBUG_PMW3360_SCAN_RATE := true } dev d st =
      pmw3360_motion_burst { cfg with DEBUG_PMW3360_SCAN_RATE := false } dev d
        (pmw3360_scan_perf_task cfg st) := rfl

theorem motion_read_debug_state {σ : Type} (cfg : Config) (dev : Sensor σ)
    (d : pmw3360_motion_t) (st : State σ) :
    pmw3360_motion_read { cfg with DEBUG_PMW3360_SCAN_RATE := true } dev d st =
      ((pmw3360_motion_read { cfg with DEBUG_PMW3360_SCAN_RATE := false } dev d st).1,
       (pmw3360_motion_read { cfg with DEBUG_PMW3360_SCAN_RATE := false } dev d st).2.1,
       with_counters
         (pmw3360_motion_read { cfg with DEBUG_PMW3360_SCAN_RATE := false } dev d st).2.2
         (pmw3360_scan_perf_task cfg st)) := by
  rw [motion_read_debug, perf_with_counters cfg st, motion_read_with_counters _ _ _ _ _ rfl,
    ← perf_with_counters cfg st]

theorem motion_burst_debug_state {σ : Type} (cfg : Config) (dev : Sensor σ)
    (d : pmw3360_motion_t) (st : State σ) :
    pmw3360_motion_burst { cfg with DEBUG_PMW3360_SCAN_RATE := true } dev d st =
      ((pmw3360_motion_burst { cfg with DEBUG_PMW3360_SCAN_RATE := false } dev d st).1,
       (pmw3360_motion_burst { cfg with DEBUG_PMW3360_SCAN_RATE := false } dev d st).2.1,
       with_counters
         (pmw3360_motion_burst { cfg with DEBUG_PMW3360_SCAN_RATE := false } dev d st).2.2
         (pmw3360_scan_perf_task cfg st)) := by
  rw [motion_burst_debug, perf_with_counters cfg st,
    motion_burst_with_counters _ _ _ _ _ rfl, ← perf_with_counters cfg st]

theorem perf_console {σ : Type} (cfg : Config) (st : State σ)
    (h : cfg.CONSOLE_ENABLE = false) :
    (pmw3360_scan_perf_task cfg st).console = st.console := by
  unfold pmw3360_scan_perf_task
  simp only [h, Bool.false_eq_true, if_false]
  split <;> rfl

/-! ## Burst flag along a run of calls: shared lemmas -/

theorem Step.refl {σ : Type} (cfg : Config) (s : State σ) : Step cfg s s :=
  ⟨[], by simp, by simp⟩

theorem Step.trans {σ : Type} {cfg : Config} {s s1 s2 : State σ}
    (h1 : Step cfg s s1) (h2 : Step cfg s1 s2) : Step cfg s s2 := by
  obtain ⟨l1, ho1, hf1⟩ := h1
  obtain ⟨l2, ho2, hf2⟩ := h2
  refine ⟨l1 ++ l2, by rw [ho2, ho1, List.append_assoc], ?_⟩
  rw [hf2, hf1]
  constructor
  · rintro ⟨⟨hs, hl1⟩, hl2⟩
    refine ⟨hs, fun a v hm => ?_⟩
    rcases List.mem_append.mp hm with hm | hm
    · exact hl1 a v hm
    · exact hl2 a v hm
  · rintro ⟨hs, hl⟩
    exact ⟨⟨hs, fun a v hm => hl a v (List.mem_append.mpr (Or.inl hm))⟩,
      fun a v hm => hl a v (List.mem_append.mpr (Or.inr hm))⟩

theorem Step.of_same {σ : Type} {cfg : Config} {s0 s s1 : State σ} (h : Step cfg s0 s)
    (hops : s1.ops = s.ops) (hflag : s1.motion_bursting = s.motion_bursting) :
    Step cfg s0 s1 :=
  Step.trans h ⟨[], by simp [hops], by simp [hflag]⟩

theorem step_reg_read {σ : Type} {cfg : Config} (dev : Sensor σ) (addr : Nat)
    {s0 s : State σ} (h : Step cfg s0 s) :
    Step cfg s0 (pmw3360_reg_read cfg dev addr s).2 := by
  refine Step.trans h ⟨[RegOp.read addr (pmw3360_reg_read cfg dev addr s).1],
    reg_read_ops cfg dev addr s, ?_⟩
  rw [reg_read_flag]
  by_cases ha : addr = cfg.pmw3360_Motion_Burst
  · simp [ha]
  · simp [ha]

theorem step_reg_write {σ : Type} {cfg : Config} (dev : Sensor σ) (addr data : Nat)
    {s0 s : State σ} (h : Step cfg s0 s) :
    Step cfg s0 (pmw3360_reg_write dev addr data s) := by
  refine Step.trans h ⟨[RegOp.write addr data], reg_write_ops dev addr data s, ?_⟩
  rw [reg_write_flag]
  simp

theorem step_spi_start {σ : Type} {cfg : Config} (dev : Sensor σ) {s0 s : State σ}
    (h : Step cfg s0 s) : Step cfg s0 (spi_start dev s) := h.of_same rfl rfl

theorem step_spi_stop {σ : Type} {cfg : Config} (dev : Sensor σ) {s0 s : State σ}
    (h : Step cfg s0 s) : Step cfg s0 (spi_stop dev s) := h.of_same rfl rfl

theorem step_wait_us {σ : Type} {cfg : Config} (n : Nat) {s0 s : State σ}
    (h : Step cfg s0 s) : Step cfg s0 (wait_us n s) := h.of_same rfl rfl

theorem step_wait_ms {σ : Type} {cfg : Config} (n : Nat) {s0 s : State σ}
    (h : Step cfg s0 s) : Step cfg s0 (wait_ms n s) := h.of_same rfl rfl

theorem step_spim_init {σ : Type} {cfg : Config} {s0 s : State σ}
    (h : Step cfg s0 s) : Step cfg s0 (spim_init s) := h.of_same rfl rfl

theorem step_setPinOutput {σ : Type} {cfg : Config} {s0 s : State σ}
    (h : Step cfg s0 s) : Step cfg s0 (setPinOutput s) := h.of_same rfl rfl

theorem step_spim_start {σ : Type} {cfg : Config} (dev : Sensor σ) (tx : List Nat)
    (n : Nat) {s0 s : State σ} (h : Step cfg s0 s) :
    Step cfg s0 (spim_start dev tx n s).2 := h.of_same rfl rfl

theorem step_hook {σ : Type} {cfg : Config} {s0 s : State σ}
    (h : Step cfg s0 s) : Step cfg s0 (scan_rate_hook cfg s) :=
  h.of_same (hook_ops cfg s) (hook_flag cfg s)

theorem step_clock {σ : Type} {cfg : Config} (t : Nat) {s0 s : State σ}
    (h : Step cfg s0 s) : Step cfg s0 { s with clock := t } := h.of_same rfl rfl

theorem step_srom_id {σ : Type} {cfg : Config} (v : Nat) {s0 s : State σ}
    (h : Step cfg s0 s) : Step cfg s0 { s with pmw3360_srom_id := v } := h.of_same rfl rfl

theorem srom_loop_flag {σ : Type} (dev : Sensor σ) (srom : List Nat) (st : State σ) :
    (srom_loop dev srom st).motion_bursting = st.motion_bursting := by
  induction srom generalizing st with
  | nil => rfl
  | cons b rest ih => simp only [srom_loop, ih, wait_us_flag, spim_start_flag]

theorem step_srom_loop {σ : Type} {cfg : Config} (dev : Sensor σ) (srom : List Nat)
    {s0 s : State σ} (h : Step cfg s0 s) : Step cfg s0 (srom_loop dev srom s) :=
  h.of_same (srom_loop_ops dev srom s) (srom_loop_flag dev srom s)

theorem step_init {σ : Type} (cfg : Config) (dev : Sensor σ) (s : State σ) :
    Step cfg s (pmw3360_init cfg dev s).2 := by
  simp only [pmw3360_init]
  exact step_spi_stop dev (step_reg_read dev _ (step_reg_read dev _ (step_reg_write dev _ _
    (step_reg_read dev _ (step_reg_read dev _ (step_reg_read dev _ (step_reg_read dev _
    (step_reg_read dev _ (step_wait_ms 50 (step_reg_write dev _ _ (step_spi_start dev
    (step_setPinOutput (step_spim_init (Step.refl cfg s))))))))))))))

theorem step_srom_upload {σ : Type} (cfg : Config) (dev : Sensor σ) (srom : List Nat)
    (s : State σ) : Step cfg s (pmw3360_srom_upload cfg dev srom s) := by
  simp only [pmw3360_srom_upload]
  exact step_wait_ms 10 (step_reg_write dev _ _ (step_srom_id _ (step_reg_read dev _
    (step_wait_us 200 (step_spi_stop dev (step_srom_loop dev srom (step_wait_us 15
    (step_spim_start dev _ 0 (step_spi_start dev (step_reg_write dev _ _ (step_wait_us 10
    (step_reg_write dev _ _ (step_reg_write dev _ _ (Step.refl cfg s))))))))))))))

theorem step_motion_read {σ : Type} (cfg : Config) (dev : Sensor σ)
    (d : pmw3360_motion_t) (s : State σ) :
    Step cfg s (pmw3360_motion_read cfg dev d s).2.2 := by
  by_cases h : (pmw3360_reg_read cfg dev cfg.pmw3360_Motion (scan_rate_hook cfg s)).1
      &&& 0x88 = 0x80
  · simp only [pmw3360_motion_read, h, ne_eq, not_true_eq_false, if_false]
    exact step_reg_read dev _ (step_reg_read dev _ (step_reg_read dev _
      (step_reg_read dev _ (step_reg_read dev _ (step_hook (Step.refl cfg s))))))
  · rw [motion_read_idle cfg dev d s h]
    exact step_reg_read dev _ (step_hook (Step.refl cfg s))

theorem step_run_call {σ : Type} (cfg : Config) (dev : Sensor σ) (c : Call)
    (hc : c.is_burst = false) (s : State σ) : Step cfg s (run_call cfg dev c s) := by
  cases c with
  | init => exact step_init cfg dev s
  | srom_upload srom => exact step_srom_upload cfg dev srom s
  | cpi_get => exact step_reg_read dev _ (Step.refl cfg s)
  | cpi_set cpi => exact step_reg_write dev _ _ (Step.refl cfg s)
  | motion_read d => exact step_motion_read cfg dev d s
  | motion_burst d => simp [Call.is_burst] at hc
  | reg_read addr => exact step_reg_read dev _ (Step.refl cfg s)
  | reg_write addr data => exact step_reg_write dev _ _ (Step.refl cfg s)
  | scan_rate_get => exact Step.refl cfg s

theorem run_calls_nil {σ : Type} (cfg : Config) (dev : Sensor σ) (st : State σ) :
    run_calls cfg dev [] st = st := rfl

theorem run_calls_cons {σ : Type} (cfg : Config) (dev : Sensor σ) (c : Nat × Call)
    (rest : List (Nat × Call)) (st : State σ) :
    run_calls cfg dev (c :: rest) st =
      run_calls cfg dev rest (run_call cfg dev c.2 { st with clock := c.1 }) := rfl

theorem run_calls_append {σ : Type} (cfg : Config) (dev : Sensor σ)
    (xs ys : List (Nat × Call)) (st : State σ) :
    run_calls cfg dev (xs ++ ys) st = run_calls cfg dev ys (run_calls cfg dev xs st) := by
  simp [run_calls, List.foldl_append]

theorem step_run_calls {σ : Type} (cfg : Config) (dev : Sensor σ)
    (calls : List (Nat × Call)) (hcalls : ∀ c ∈ calls, c.2.is_burst = false)
    (s : State σ) : Step cfg s (run_calls cfg dev calls s) := by
  induction calls generalizing s with
  | nil => exact Step.refl cfg s
  | cons c rest ih =>
    rw [run_calls_cons]
    have h1 : Step cfg s (run_call cfg dev c.2 { s with clock := c.1 }) :=
      Step.trans (step_clock c.1 (Step.refl cfg s))
        (step_run_call cfg dev c.2 (hcalls c (List.mem_cons_self c rest)) _)
    exact Step.trans h1 (ih (fun x hx => hcalls x (List.mem_cons_of_mem c hx)) _)

theorem run_calls_burst_last {σ : Type} (cfg : Config) (dev : Sensor σ)
    (pre : List (Nat × Call)) (t : Nat) (d : pmw3360_motion_t) (st : State σ) :
    (run_calls cfg dev (pre ++ [(t, Call.motion_burst d)]) st).motion_bursting = true := by
  rw [run_calls_append, run_calls_cons, run_calls_nil]
  exact burst_flag cfg dev d _

theorem split_last_burst (calls : List (Nat × Call)) :
    (∀ c ∈ calls, c.2.is_burst = false) ∨
    ∃ (pre : List (Nat × Call)) (t : Nat) (d : pmw3360_motion_t)
      (post : List (Nat × Call)),
      calls = pre ++ (t, Call.motion_burst d) :: post ∧
      ∀ c ∈ post, c.2.is_burst = false := by
  induction calls with
  | nil => exact Or.inl (fun c hc => by simp at hc)
  | cons c rest ih =>
    rcases ih with hno | ⟨pre, t, d, post, hsplit, hpost⟩
    · obtain ⟨t, call⟩ := c
      cases call with
      | motion_burst d => exact Or.inr ⟨[], t, d, rest, rfl, hno⟩
      | init => refine Or.inl (fun x hx => ?_); rcases List.mem_cons.mp hx with h | h
                · rw [h]; rfl
                · exact hno x h
      | srom_upload srom =>
        refine Or.inl (fun x hx => ?_); rcases List.mem_cons.mp hx with h | h
        · rw [h]; rfl
        · exact hno x h
      | cpi_get =>
        refine Or.inl (fun x hx => ?_); rcases List.mem_cons.mp hx with h | h
        · rw [h]; rfl
        · exact hno x h
      | cpi_set cpi =>
        refine Or.inl (fun x hx => ?_); rcases List.mem_cons.mp hx with h | h
        · rw [h]; rfl
        · exact hno x h
      | motion_read d =>
        refine Or.inl (fun x hx => ?_); rcases List.mem_cons.mp hx with h | h
        · rw [h]; rfl
        · exact hno x h
      | reg_read addr =>
        refine Or.inl (fun x hx => ?_); rcases List.mem_cons.mp hx with h | h
        · rw [h]; rfl
        · exact hno x h
      | reg_write addr data =>
        refine Or.inl (fun x hx => ?_); rcases List.mem_cons.mp hx with h | h
        · rw [h]; rfl
        · exact hno x h
      | scan_rate_get =>
        refine Or.inl (fun x hx => ?_); rcases List.mem_cons.mp hx with h | h
        · rw [h]; rfl
        · exact hno x h
    · exact Or.inr ⟨c :: pre, t, d, post, by rw [hsplit]; rfl, hpost⟩

/-! ## The driver seen from the sensor: shared lemmas -/

theorem reg_read_fst {σ : Type} (cfg : Config) (dev : Sensor σ) (addr : Nat)
    (st : State σ) :
    (pmw3360_reg_read cfg dev addr st).1 = (sensor_reg_read dev st.sensor addr).1 := by
  rw [reg_read_val]
  rfl

theorem reg_read_sensor {σ : Type} (cfg : Config) (dev : Sensor σ) (addr : Nat)
    (st : State σ) :
    (pmw3360_reg_read cfg dev addr st).2.sensor = (sensor_reg_read dev st.sensor addr).2 := by
  unfold pmw3360_reg_read
  by_cases h : addr = cfg.pmw3360_Motion_Burst
  · simp only [h, ne_eq, not_true_eq_false, if_false]
    rfl
  · simp only [h, ne_eq, not_false_eq_true, if_true]
    rfl

theorem reg_read_frame {σ : Type} (cfg : Config) (dev : Sensor σ) (addr : Nat)
    (st : State σ) :
    (pmw3360_reg_read cfg dev addr st).2.bus =
      st.bus ++ read_frame addr (sensor_reg_read dev st.sensor addr).1 := by
  rw [reg_read_bus, reg_read_fst]
  rfl

theorem reg_read_log {σ : Type} (cfg : Config) (dev : Sensor σ) (addr : Nat)
    (st : State σ) :
    (pmw3360_reg_read cfg dev addr st).2.ops =
      st.ops ++ [RegOp.read addr (sensor_reg_read dev st.sensor addr).1] := by
  rw [reg_read_ops, reg_read_fst]

theorem reg_write_sensor {σ : Type} (dev : Sensor σ) (addr data : Nat) (st : State σ) :
    (pmw3360_reg_write dev addr data st).sensor =
      sensor_reg_write dev st.sensor addr data := rfl

theorem reg_write_frame {σ : Type} (dev : Sensor σ) (addr data : Nat) (st : State σ) :
    (pmw3360_reg_write dev addr data st).bus = st.bus ++ write_frame addr data :=
  reg_write_bus dev addr data st

theorem spi_start_sensor {σ : Type} (dev : Sensor σ) (st : State σ) :
    (spi_start dev st).sensor = dev.ncs st.sensor true := rfl

theorem spi_stop_sensor {σ : Type} (dev : Sensor σ) (st : State σ) :
    (spi_stop dev st).sensor = dev.ncs st.sensor false := rfl

theorem wait_us_sensor {σ : Type} (n : Nat) (st : State σ) :
    (wait_us n st).sensor = st.sensor := rfl

theorem wait_ms_sensor {σ : Type} (n : Nat) (st : State σ) :
    (wait_ms n st).sensor = st.sensor := rfl

theorem spim_init_sensor {σ : Type} (st : State σ) : (spim_init st).sensor = st.sensor := rfl

theorem setPinOutput_sensor {σ : Type} (st : State σ) :
    (setPinOutput st).sensor = st.sensor := rfl

theorem sensor_reg_read_lt {σ : Type} (dev : Sensor σ) (s : σ) (addr : Nat) :
    (sensor_reg_read dev s addr).1 < 256 :=
  Nat.mod_lt _ (by norm_num)

/-- The discrete read when the sensor answers the five reads with `mot`, `xl`,
`xh`, `yl`, `yh` and `mot` carries the motion pattern. -/
theorem motion_read_sensor {σ : Type} (cfg : Config) (dev : Sensor σ)
    (d : pmw3360_motion_t) (st : State σ) (mot xl xh yl yh : Nat) (s1 : σ)
    (hsensor : sensor_reads dev st.sensor
        [cfg.pmw3360_Motion, cfg.pmw3360_Delta_X_L, cfg.pmw3360_Delta_X_H,
         cfg.pmw3360_Delta_Y_L, cfg.pmw3360_Delta_Y_H] = ([mot, xl, xh, yl, yh], s1))
    (hmot : mot &&& 0x88 = 0x80) :
    (pmw3360_motion_read cfg dev d st).1 = true ∧
    (pmw3360_motion_read cfg dev d st).2.1 =
      { x := to_int16 (Int.ofNat (xl ||| xh <<< 8)),
        y := to_int16 (Int.ofNat (yl ||| yh <<< 8)) } ∧
    (pmw3360_motion_read cfg dev d st).2.2.ops = st.ops ++
      [RegOp.read cfg.pmw3360_Motion mot,
       RegOp.read cfg.pmw3360_Delta_X_L xl, RegOp.read cfg.pmw3360_Delta_X_H xh,
       RegOp.read cfg.pmw3360_Delta_Y_L yl, RegOp.read cfg.pmw3360_Delta_Y_H yh] ∧
    (pmw3360_motion_read cfg dev d st).2.2.bus = st.bus ++
      (read_frame cfg.pmw3360_Motion mot ++
       read_frame cfg.pmw3360_Delta_X_L xl ++ read_frame cfg.pmw3360_Delta_X_H xh ++
       read_frame cfg.pmw3360_Delta_Y_L yl ++ read_frame cfg.pmw3360_Delta_Y_H yh) ∧
    (pmw3360_motion_read cfg dev d st).2.2.sensor = s1 ∧
    (xl < 256 ∧ xh < 256 ∧ yl < 256 ∧ yh < 256) := by
  simp only [sensor_reads, Prod.mk.injEq, List.cons.injEq, and_true] at hsensor
  obtain ⟨⟨e0, e1, e2, e3, e4⟩, es⟩ := hsensor
  have hxl : xl < 256 := e1 ▸ sensor_reg_read_lt dev _ _
  have hxh : xh < 256 := e2 ▸ sensor_reg_read_lt dev _ _
  have hyl : yl < 256 := e3 ▸ sensor_reg_read_lt dev _ _
  have hyh : yh < 256 := e4 ▸ sensor_reg_read_lt dev _ _
  have hm : (pmw3360_reg_read cfg dev cfg.pmw3360_Motion (scan_rate_hook cfg st)).1
      &&& 0x88 = 0x80 := by
    rw [reg_read_fst, hook_sensor, e0]
    exact hmot
  refine ⟨?_, ?_, ?_, ?_, ?_, hxl, hxh, hyl, hyh⟩
  · simp [pmw3360_motion_read, hm]
  · simp only [pmw3360_motion_read, hm, ne_eq, not_true_eq_false, if_false]
    simp only [reg_read_fst, reg_read_sensor, hook_sensor, e1, e2, e3, e4]
    rw [delta_value xl xh hxl, delta_value yl yh hyl]
  · simp only [pmw3360_motion_read, hm, ne_eq, not_true_eq_false, if_false]
    simp only [reg_read_log, reg_read_sensor, hook_ops, hook_sensor, e0, e1, e2, e3, e4,
      List.append_assoc, List.singleton_append, List.cons_append, List.nil_append]
  · simp only [pmw3360_motion_read, hm, ne_eq, not_true_eq_false, if_false]
    simp only [reg_read_frame, reg_read_sensor, hook_bus, hook_sensor, e0, e1, e2, e3, e4,
      List.append_assoc]
  · simp only [pmw3360_motion_read, hm, ne_eq, not_true_eq_false, if_false]
    simp only [reg_read_sensor, hook_sensor]
    exact es

/-- The reset sequence when the sensor, after the reset write, answers the five
discarded reads with `b0..b4` and, after the `Config2` write, the two identity
reads with `pid`, `rev`. -/
theorem init_sensor {σ : Type} (cfg : Config) (dev : Sensor σ) (st : State σ)
    (b0 b1 b2 b3 b4 pid rev : Nat) (s1 s2 : σ)
    (hfive : sensor_reads dev
        (sensor_reg_write dev (dev.ncs st.sensor true) cfg.pmw3360_Power_Up_Reset 0x5a)
        [cfg.pmw3360_Motion, cfg.pmw3360_Delta_X_L, cfg.pmw3360_Delta_X_H,
         cfg.pmw3360_Delta_Y_L, cfg.pmw3360_Delta_Y_H] = ([b0, b1, b2, b3, b4], s1))
    (hid : sensor_reads dev (sensor_reg_write dev s1 cfg.pmw3360_Config2 0x00)
        [cfg.pmw3360_Product_ID, cfg.pmw3360_Revision_ID] = ([pid, rev], s2)) :
    (pmw3360_init cfg dev st).1 = (pid == 0x42 && rev == 0x01) ∧
    (pmw3360_init cfg dev st).2.ops = st.ops ++
      [RegOp.write cfg.pmw3360_Power_Up_Reset 0x5a,
       RegOp.read cfg.pmw3360_Motion b0, RegOp.read cfg.pmw3360_Delta_X_L b1,
       RegOp.read cfg.pmw3360_Delta_X_H b2, RegOp.read cfg.pmw3360_Delta_Y_L b3,
       RegOp.read cfg.pmw3360_Delta_Y_H b4, RegOp.write cfg.pmw3360_Config2 0x00,
       RegOp.read cfg.pmw3360_Product_ID pid, RegOp.read cfg.pmw3360_Revision_ID rev] ∧
    (pmw3360_init cfg dev st).2.bus = st.bus ++
      ([Ev.spim_init, Ev.setPinOutput, Ev.spi_start] ++
       write_frame cfg.pmw3360_Power_Up_Reset 0x5a ++
       [Ev.wait_ms 50] ++
       read_frame cfg.pmw3360_Motion b0 ++ read_frame cfg.pmw3360_Delta_X_L b1 ++
       read_frame cfg.pmw3360_Delta_X_H b2 ++ read_frame cfg.pmw3360_Delta_Y_L b3 ++
       read_frame cfg.pmw3360_Delta_Y_H b4 ++
       write_frame cfg.pmw3360_Config2 0x00 ++
       read_frame cfg.pmw3360_Product_ID pid ++ read_frame cfg.pmw3360_Revision_ID rev ++
       [Ev.spi_stop]) ∧
    (pmw3360_init cfg dev st).2.sensor = dev.ncs s2 false := by
  simp only [sensor_reads, Prod.mk.injEq, List.cons.injEq, and_true] at hfive hid
  obtain ⟨⟨e0, e1, e2, e3, e4⟩, es1⟩ := hfive
  obtain ⟨⟨f0, f1⟩, es2⟩ := hid
  refine ⟨?_, ?_, ?_, ?_⟩
  · simp only [pmw3360_init, reg_read_fst, reg_read_sensor, reg_write_sensor,
      wait_ms_sensor, spi_start_sensor, setPinOutput_sensor, spim_init_sensor, es1, f0, f1]
  · simp only [pmw3360_init, spi_stop_ops, spi_start_ops, wait_ms_ops, reg_read_log,
      reg_write_ops, spim_init_ops, setPinOutput_ops, reg_read_sensor, reg_write_sensor,
      wait_ms_sensor, spi_start_sensor, setPinOutput_sensor, spim_init_sensor,
      e0, e1, e2, e3, e4, es1, f0, f1,
      List.append_assoc, List.singleton_append, List.cons_append, List.nil_append]
  · simp only [pmw3360_init, spi_stop_bus, spi_start_bus, wait_ms_bus, reg_read_frame,
      reg_write_frame, spim_init_bus, setPinOutput_bus, reg_read_sensor, reg_write_sensor,
      wait_ms_sensor, spi_start_sensor, setPinOutput_sensor, spim_init_sensor,
      e0, e1, e2, e3, e4, es1, f0, f1,
      List.append_assoc, List.singleton_append, List.cons_append, List.nil_append]
  · simp only [pmw3360_init, spi_stop_sensor, reg_read_sensor, reg_write_sensor,
      wait_ms_sensor, spi_start_sensor, setPinOutput_sensor, spim_init_sensor, es1, es2]

theorem init_flag {σ : Type} (cfg : Config) (dev : Sensor σ) (st : State σ)
    (hrev : cfg.pmw3360_Revision_ID ≠ cfg.pmw3360_Motion_Burst) :
    (pmw3360_init cfg dev st).2.motion_bursting = false := by
  simp only [pmw3360_init, spi_stop_flag]
  rw [reg_read_flag]
  simp [hrev]

theorem burst_enter_sensor {σ : Type} (cfg : Config) (dev : Sensor σ) (st : State σ) :
    (burst_enter cfg dev st).sensor =
      (if st.motion_bursting then st.sensor
       else sensor_reg_write dev st.sensor cfg.pmw3360_Motion_Burst 0) := by
  unfold burst_enter
  by_cases h : st.motion_bursting = true
  · simp [h]
  · simp [h, reg_write_sensor]

theorem burst_enter_frame {σ : Type} (cfg : Config) (dev : Sensor σ) (st : State σ) :
    (burst_enter cfg dev st).bus = st.bus ++
      (if st.motion_bursting then [] else write_frame cfg.pmw3360_Motion_Burst 0) :=
  burst_enter_bus cfg dev st

theorem burst_stream_sensor {σ : Type} (cfg : Config) (dev : Sensor σ)
    (d : pmw3360_motion_t) (st : State σ) :
    (pmw3360_motion_burst cfg dev d st).2.2.sensor =
      (sensor_burst dev (burst_enter cfg dev (scan_rate_hook cfg st)).sensor
        cfg.pmw3360_Motion_Burst).2 := rfl

theorem burst_stream_bus {σ : Type} (cfg : Config) (dev : Sensor σ)
    (d : pmw3360_motion_t) (st : State σ) :
    (pmw3360_motion_burst cfg dev d st).2.2.bus =
      (burst_enter cfg dev (scan_rate_hook cfg st)).bus ++
        burst_frame cfg.pmw3360_Motion_Burst
          (sensor_burst dev (burst_enter cfg dev (scan_rate_hook cfg st)).sensor
            cfg.pmw3360_Motion_Burst).1 := by
  simp only [pmw3360_motion_burst, wait_us_bus, spi_stop_bus, spim_start_bus,
    spi_start_bus, spim_start_zero, burst_frame, List.append_assoc, List.singleton_append,
    List.cons_append, List.nil_append]
  rfl

/-- One burst read seen from the sensor: the entry write reaches the sensor
exactly when the flag was false, then comes the streaming transaction. -/
theorem burst_sensor {σ : Type} (cfg : Config) (dev : Sensor σ) (d : pmw3360_motion_t)
    (st : State σ) :
    (pmw3360_motion_burst cfg dev d st).2.2.bus = st.bus ++
      ((if st.motion_bursting then [] else write_frame cfg.pmw3360_Motion_Burst 0) ++
       burst_frame cfg.pmw3360_Motion_Burst
        (sensor_burst dev
          (if st.motion_bursting then st.sensor
           else sensor_reg_write dev st.sensor cfg.pmw3360_Motion_Burst 0)
          cfg.pmw3360_Motion_Burst).1) ∧
    (pmw3360_motion_burst cfg dev d st).2.2.sensor =
      (sensor_burst dev
        (if st.motion_bursting then st.sensor
         else sensor_reg_write dev st.sensor cfg.pmw3360_Motion_Burst 0)
        cfg.pmw3360_Motion_Burst).2 := by
  rw [burst_stream_bus, burst_stream_sensor, burst_enter_frame, burst_enter_sensor,
    hook_flag, hook_bus, hook_sensor, List.append_assoc]
  exact ⟨rfl, rfl⟩

theorem sensor_bursts_length {σ : Type} (dev : Sensor σ) (cmd n : Nat) (s : σ) :
    (sensor_bursts dev cmd n s).1.length = n := by
  induction n with
  | zero => rfl
  | succ k ih => simp [sensor_bursts, ih]

/-- A run of `k + 1` burst reads seen from the sensor. -/
theorem burst_calls_sensor {σ : Type} (cfg : Config) (dev : Sensor σ) (k : Nat)
    (d : pmw3360_motion_t) (st : State σ) :
    (burst_calls cfg dev (k + 1) d st).2.bus = st.bus ++
      ((if st.motion_bursting then [] else write_frame cfg.pmw3360_Motion_Burst 0) ++
       (sensor_bursts dev cfg.pmw3360_Motion_Burst (k + 1)
          (if st.motion_bursting then st.sensor
           else sensor_reg_write dev st.sensor cfg.pmw3360_Motion_Burst 0)).1.flatMap
         (burst_frame cfg.pmw3360_Motion_Burst)) ∧
    (burst_calls cfg dev (k + 1) d st).2.sensor =
      (sensor_bursts dev cfg.pmw3360_Motion_Burst (k + 1)
        (if st.motion_bursting then st.sensor
         else sensor_reg_write dev st.sensor cfg.pmw3360_Motion_Burst 0)).2 := by
  induction k with
  | zero =>
    rw [burst_calls_succ]
    obtain ⟨hb, hs⟩ := burst_sensor cfg dev (burst_calls cfg dev 0 d st).1
      (burst_calls cfg dev 0 d st).2
    refine ⟨?_, ?_⟩
    · rw [hb]
      simp [sensor_bursts, burst_calls]
    · rw [hs]
      simp [sensor_bursts, burst_calls]
  | succ j ih =>
    rw [burst_calls_succ]
    obtain ⟨hb, hs⟩ := burst_sensor cfg dev (burst_calls cfg dev (j + 1) d st).1
      (burst_calls cfg dev (j + 1) d st).2
    have hf := (burst_calls_run cfg dev j d st).1
    rw [hf] at hb hs
    simp only [if_true, List.nil_append] at hb hs
    refine ⟨?_, ?_⟩
    · rw [hb, ih.1, ih.2]
      conv_rhs => rw [sensor_bursts]
      simp only [List.flatMap_append, List.flatMap_cons, List.flatMap_nil,
        List.append_nil, List.append_assoc]
    · rw [hs, ih.2]
      conv_rhs => rw [sensor_bursts]

/-! ## Claims -/

/-- C5: for every register address `A` other than `pmw3360_Motion_Burst` and
every prior state, the burst flag is false after `pmw3360_reg_read(A)`; for
`A = pmw3360_Motion_Burst` the flag is left as it was. -/
theorem C5_reg_read_clears_burst_flag {σ : Type} (cfg : Config) (dev : Sensor σ)
    (A : Nat) (st : State σ) :
    (A ≠ cfg.pmw3360_Motion_Burst →
      (pmw3360_reg_read cfg dev A st).2.motion_bursting = false) ∧
    (A = cfg.pmw3360_Motion_Burst →
      (pmw3360_reg_read cfg dev A st).2.motion_bursting = st.motion_bursting) := by
  rw [reg_read_flag]
  constructor
  · intro h; simp [h]
  · intro h; simp [h]

/-- Witness of C5: with the data sheet's addresses, a read of `Motion` (0x02)
in burst mode clears the flag and a read of `Motion_Burst` (0x50) keeps it. -/
theorem C5_witness :
    (pmw3360_reg_read datasheet scripted 0x02
      { State.initial [0x80] 0 with motion_bursting := true }).2.motion_bursting = false ∧
    (pmw3360_reg_read datasheet scripted 0x50
      { State.initial [0x80] 0 with motion_bursting := true }).2.motion_bursting = true :=
  ⟨(C5_reg_read_clears_burst_flag datasheet scripted 0x02
      { State.initial [0x80] 0 with motion_bursting := true }).1 (by decide),
   (C5_reg_read_clears_burst_flag datasheet scripted 0x50
      { State.initial [0x80] 0 with motion_bursting := true }).2 rfl⟩

/-- C9: for every address byte `addr`, `pmw3360_reg_read(addr)` adds to the bus
log exactly: begin transaction; send the single byte `addr & 0x7f` (high bit
clear); wait 160 us; receive one byte; wait 1 us; end transaction; wait 19 us;
and it returns the byte received there, which is the byte the sensor presented
after being selected and sent `addr & 0x7f`. -/
theorem C9_reg_read_bus_trace {σ : Type} (cfg : Config) (dev : Sensor σ)
    (addr : Nat) (st : State σ) :
    ∃ rcv : Nat,
      (pmw3360_reg_read cfg dev addr st).1 = rcv ∧
      rcv = (dev.miso (dev.mosi (dev.ncs st.sensor true) (addr &&& 0x7f))).1 % 256 ∧
      addr &&& 0x7f < 128 ∧
      (pmw3360_reg_read cfg dev addr st).2.bus = st.bus ++
        [Ev.spi_start, Ev.spim_start [addr &&& 0x7f] [], Ev.wait_us 160,
         Ev.spim_start [] [rcv], Ev.wait_us 1, Ev.spi_stop, Ev.wait_us 19] := by
  refine ⟨_, rfl, reg_read_val cfg dev addr st, ?_, reg_read_bus cfg dev addr st⟩
  exact Nat.lt_of_le_of_lt Nat.and_le_right (by norm_num)

/-- C10: for every address byte `addr` and data byte `data`,
`pmw3360_reg_write(addr, data)` adds to the bus log exactly: begin transaction;
one transfer sending the two bytes `addr | 0x80`, `data` and receiving nothing;
wait 35 us; end transaction; wait 180 us; and the burst flag is unchanged. -/
theorem C10_reg_write_bus_trace {σ : Type} (dev : Sensor σ) (addr data : Nat)
    (st : State σ) :
    (pmw3360_reg_write dev addr data st).bus = st.bus ++
      [Ev.spi_start, Ev.spim_start [addr ||| 0x80, data] [], Ev.wait_us 35,
       Ev.spi_stop, Ev.wait_us 180] ∧
    (pmw3360_reg_write dev addr data st).motion_bursting = st.motion_bursting :=
  ⟨reg_write_bus dev addr data st, reg_write_flag dev addr data st⟩

/-- C2: for every `Motion` byte `mot` with `(mot & 0x88) == 0x80` and all bytes
`xl`, `xh`, `yl`, `yh` that the sensor returns to the reads of `Motion`,
`Delta_X_L`, `Delta_X_H`, `Delta_Y_L`, `Delta_Y_H` made in that order from the
entry state, `pmw3360_motion_read` returns true after reading exactly those
five registers in that order (the register log and the bus log of the call are
the five read frames carrying those bytes, and the sensor is left where the
five reads leave it), and the sample has `x` equal to the 16 bit word
`xl | (xh << 8)` read as a two's complement number (`xl + 256*xh - 65536` when
`xh >= 0x80`, `xl + 256*xh` otherwise) and `y` likewise from `yl`, `yh`,
regardless of the sample passed in. -/
theorem C2_motion_read_sample {σ : Type} (cfg : Config) (dev : Sensor σ)
    (d : pmw3360_motion_t) (st : State σ) (mot xl xh yl yh : Nat) (s1 : σ)
    (hsensor : sensor_reads dev st.sensor
        [cfg.pmw3360_Motion, cfg.pmw3360_Delta_X_L, cfg.pmw3360_Delta_X_H,
         cfg.pmw3360_Delta_Y_L, cfg.pmw3360_Delta_Y_H] = ([mot, xl, xh, yl, yh], s1))
    (hmot : mot &&& 0x88 = 0x80) :
    (pmw3360_motion_read cfg dev d st).1 = true ∧
    new_ops st (pmw3360_motion_read cfg dev d st).2.2 =
      [RegOp.read cfg.pmw3360_Motion mot,
       RegOp.read cfg.pmw3360_Delta_X_L xl, RegOp.read cfg.pmw3360_Delta_X_H xh,
       RegOp.read cfg.pmw3360_Delta_Y_L yl, RegOp.read cfg.pmw3360_Delta_Y_H yh] ∧
    new_bus st (pmw3360_motion_read cfg dev d st).2.2 =
      read_frame cfg.pmw3360_Motion mot ++
      read_frame cfg.pmw3360_Delta_X_L xl ++ read_frame cfg.pmw3360_Delta_X_H xh ++
      read_frame cfg.pmw3360_Delta_Y_L yl ++ read_frame cfg.pmw3360_Delta_Y_H yh ∧
    (pmw3360_motion_read cfg dev d st).2.2.sensor = s1 ∧
    (pmw3360_motion_read cfg dev d st).2.1 =
      { x := to_int16 (Int.ofNat (xl ||| xh <<< 8)),
        y := to_int16 (Int.ofNat (yl ||| yh <<< 8)) } ∧
    (pmw3360_motion_read cfg dev d st).2.1.x =
      (if 0x80 ≤ xh then (xl : Int) + 256 * xh - 65536 else (xl : Int) + 256 * xh) ∧
    (pmw3360_motion_read cfg dev d st).2.1.y =
      (if 0x80 ≤ yh then (yl : Int) + 256 * yh - 65536 else (yl : Int) + 256 * yh) := by
  obtain ⟨hret, hd, hops, hbus, hs, h1, h2, h3, h4⟩ :=
    motion_read_sensor cfg dev d st mot xl xh yl yh s1 hsensor hmot
  refine ⟨hret, new_ops_append _ _ _ hops, new_bus_append _ _ _ hbus, hs, hd, ?_, ?_⟩
  · rw [hd]; exact to_int16_word xl xh h1 h2
  · rw [hd]; exact to_int16_word yl yh h3 h4

/-- Witness of C2: the sensor answers `Motion` with `0x80`, then the delta
bytes `0xfe, 0xff` and `0x05, 0x00`; the read returns true with the sample
`x = -2`, `y = 5` (it was `x = 7`, `y = -3` before) after exactly the five
reads. -/
theorem C2_witness :
    (pmw3360_motion_read datasheet scripted { x := 7, y := -3 }
      (State.initial [0x80, 0xfe, 0xff, 0x05, 0x00] 0)).1 = true ∧
    (pmw3360_motion_read datasheet scripted { x := 7, y := -3 }
      (State.initial [0x80, 0xfe, 0xff, 0x05, 0x00] 0)).2.1 = { x := -2, y := 5 } ∧
    new_ops (State.initial [0x80, 0xfe, 0xff, 0x05, 0x00] 0)
      (pmw3360_motion_read datasheet scripted { x := 7, y := -3 }
        (State.initial [0x80, 0xfe, 0xff, 0x05, 0x00] 0)).2.2 =
      [RegOp.read 0x02 0x80, RegOp.read 0x03 0xfe, RegOp.read 0x04 0xff,
       RegOp.read 0x05 0x05, RegOp.read 0x06 0x00] :=
  have h := C2_motion_read_sample datasheet scripted { x := 7, y := -3 }
    (State.initial [0x80, 0xfe, 0xff, 0x05, 0x00] 0) 0x80 0xfe 0xff 0x05 0x00 []
    (by decide) (by decide)
  ⟨h.1, h.2.2.2.2.1.trans (by decide), h.2.1⟩

/-- C3: for every byte `v`, `pmw3360_cpi_set(v)` performs exactly one register
write, to `Config1`, with data `min(v, pmw3360_MAXCPI)` (one write frame on the
bus); and over a sensor on which a read of `Config1` returns the last byte
written to it, `pmw3360_cpi_get()` called next returns `pmw3360_MAXCPI` when
`v > pmw3360_MAXCPI` and `v` when `v <= pmw3360_MAXCPI`. -/
theorem C3_cpi_set_clamps {σ : Type} (cfg : Config) (dev : Sensor σ) (v : Nat)
    (st : State σ) (hv : v < 256) :
    new_ops st (pmw3360_cpi_set cfg dev v st) =
      [RegOp.write cfg.pmw3360_Config1 (min v cfg.pmw3360_MAXCPI)] ∧
    new_bus st (pmw3360_cpi_set cfg dev v st) =
      [Ev.spi_start,
       Ev.spim_start [cfg.pmw3360_Config1 ||| 0x80, min v cfg.pmw3360_MAXCPI] [],
       Ev.wait_us 35, Ev.spi_stop, Ev.wait_us 180] ∧
    ((∀ (s : State σ) (b : Nat), b < 256 →
        (pmw3360_reg_read cfg dev cfg.pmw3360_Config1
          (pmw3360_reg_write dev cfg.pmw3360_Config1 b s)).1 = b) →
      (v > cfg.pmw3360_MAXCPI →
        (pmw3360_cpi_get cfg dev (pmw3360_cpi_set cfg dev v st)).1 = cfg.pmw3360_MAXCPI) ∧
      (v ≤ cfg.pmw3360_MAXCPI →
        (pmw3360_cpi_get cfg dev (pmw3360_cpi_set cfg dev v st)).1 = v)) := by
  have hset : pmw3360_cpi_set cfg dev v st =
      pmw3360_reg_write dev cfg.pmw3360_Config1 (min v cfg.pmw3360_MAXCPI) st := by
    unfold pmw3360_cpi_set
    by_cases h : v > cfg.pmw3360_MAXCPI
    · simp [h, Nat.min_eq_right (Nat.le_of_lt h)]
    · simp [h, Nat.min_eq_left (Nat.le_of_not_lt h)]
  refine ⟨?_, ?_, ?_⟩
  · rw [hset]; exact new_ops_append _ _ _ (reg_write_ops _ _ _ _)
  · rw [hset]; exact new_bus_append _ _ _ (reg_write_bus _ _ _ _)
  · intro hdev
    have hmin : min v cfg.pmw3360_MAXCPI < 256 := Nat.lt_of_le_of_lt (Nat.min_le_left _ _) hv
    have hget := hdev st _ hmin
    rw [hset]
    unfold pmw3360_cpi_get
    rw [hget]
    exact ⟨fun h => Nat.min_eq_right (Nat.le_of_lt h), fun h => Nat.min_eq_left h⟩

/-- Witness of C3: on the register-file sensor, with the data sheet's constants
(`MAXCPI = 0x77`), setting `0xc8` reads back `0x77` and setting `0x10` reads
back `0x10`. -/
theorem C3_witness :
    (pmw3360_cpi_get datasheet regfile (pmw3360_cpi_set datasheet regfile 0xc8
      (State.initial { phase := 0, addr := 0, mem := [] } 0))).1 = 0x77 ∧
    (pmw3360_cpi_get datasheet regfile (pmw3360_cpi_set datasheet regfile 0x10
      (State.initial { phase := 0, addr := 0, mem := [] } 0))).1 = 0x10 :=
  have hdev : ∀ (s : State RegFile) (b : Nat), b < 256 →
      (pmw3360_reg_read datasheet regfile datasheet.pmw3360_Config1
        (pmw3360_reg_write regfile datasheet.pmw3360_Config1 b s)).1 = b := by
    intro s b hb
    have e1 : (15 &&& 127 : Nat) = 15 := by decide
    simp [reg_read_val, pmw3360_reg_write, spim_start, recvBytes, spi_start, spi_stop,
      wait_us, regfile, datasheet, List.lookup, Nat.mod_eq_of_lt hb, e1]
  ⟨((C3_cpi_set_clamps datasheet regfile 0xc8
      (State.initial { phase := 0, addr := 0, mem := [] } 0) (by decide)).2.2 hdev).1
      (by decide),
   ((C3_cpi_set_clamps datasheet regfile 0x10
      (State.initial { phase := 0, addr := 0, mem := [] } 0) (by decide)).2.2 hdev).2
      (by decide)⟩

/-- C4: for every sequence of bytes the sensor returns during `pmw3360_init`
(`b0..b4` to the five discarded reads that follow the reset write, then `pid`
to the `Product_ID` read and `rev` to the `Revision_ID` read that follow the
`Config2` write), `pmw3360_init` returns true if and only if `pid == 0x42` and
`rev == 0x01`, whatever `b0..b4` are; the register log and the bus log of the
call are the reset sequence carrying exactly those bytes; and whatever the
burst flag was before the call, it is false when `pmw3360_init` returns. -/
theorem C4_init_identity_check {σ : Type} (cfg : Config) (dev : Sensor σ)
    (st : State σ) (b0 b1 b2 b3 b4 pid rev : Nat) (s1 s2 : σ)
    (hreg : cfg.regs_distinct)
    (hfive : sensor_reads dev
        (sensor_reg_write dev (dev.ncs st.sensor true) cfg.pmw3360_Power_Up_Reset 0x5a)
        [cfg.pmw3360_Motion, cfg.pmw3360_Delta_X_L, cfg.pmw3360_Delta_X_H,
         cfg.pmw3360_Delta_Y_L, cfg.pmw3360_Delta_Y_H] = ([b0, b1, b2, b3, b4], s1))
    (hid : sensor_reads dev (sensor_reg_write dev s1 cfg.pmw3360_Config2 0x00)
        [cfg.pmw3360_Product_ID, cfg.pmw3360_Revision_ID] = ([pid, rev], s2)) :
    ((pmw3360_init cfg dev st).1 = true ↔ pid = 0x42 ∧ rev = 0x01) ∧
    new_ops st (pmw3360_init cfg dev st).2 =
      [RegOp.write cfg.pmw3360_Power_Up_Reset 0x5a,
       RegOp.read cfg.pmw3360_Motion b0, RegOp.read cfg.pmw3360_Delta_X_L b1,
       RegOp.read cfg.pmw3360_Delta_X_H b2, RegOp.read cfg.pmw3360_Delta_Y_L b3,
       RegOp.read cfg.pmw3360_Delta_Y_H b4, RegOp.write cfg.pmw3360_Config2 0x00,
       RegOp.read cfg.pmw3360_Product_ID pid, RegOp.read cfg.pmw3360_Revision_ID rev] ∧
    new_bus st (pmw3360_init cfg dev st).2 =
      [Ev.spim_init, Ev.setPinOutput, Ev.spi_start] ++
      write_frame cfg.pmw3360_Power_Up_Reset 0x5a ++
      [Ev.wait_ms 50] ++
      read_frame cfg.pmw3360_Motion b0 ++ read_frame cfg.pmw3360_Delta_X_L b1 ++
      read_frame cfg.pmw3360_Delta_X_H b2 ++ read_frame cfg.pmw3360_Delta_Y_L b3 ++
      read_frame cfg.pmw3360_Delta_Y_H b4 ++
      write_frame cfg.pmw3360_Config2 0x00 ++
      read_frame cfg.pmw3360_Product_ID pid ++ read_frame cfg.pmw3360_Revision_ID rev ++
      [Ev.spi_stop] ∧
    (pmw3360_init cfg dev st).2.sensor = dev.ncs s2 false ∧
    (pmw3360_init cfg dev st).2.motion_bursting = false := by
  have hrev : cfg.pmw3360_Revision_ID ≠ cfg.pmw3360_Motion_Burst := by
    unfold Config.regs_distinct at hreg
    simp only [List.nodup_cons, List.mem_cons, not_or] at hreg
    exact hreg.2.1.2.2.2.2.2.2.2.2.2.2.1
  obtain ⟨hret, hops, hbus, hs⟩ :=
    init_sensor cfg dev st b0 b1 b2 b3 b4 pid rev s1 s2 hfive hid
  refine ⟨?_, new_ops_append _ _ _ hops, new_bus_append _ _ _ hbus, hs,
    init_flag cfg dev st hrev⟩
  rw [hret]
  simp only [Bool.and_eq_true, beq_iff_eq]

/-- Witness of C4: with the data sheet's addresses, a sensor that answers the
identity reads with `0x42`, `0x01` is accepted (return true) and the flag, true
before, is false after; a sensor that answers `0x42`, `0x02` is refused (return
false); the five discarded bytes are `9` in both runs. -/
theorem C4_witness :
    (pmw3360_init datasheet scripted
      { State.initial [9, 9, 9, 9, 9, 0x42, 0x01] 0 with motion_bursting := true }).1
        = true ∧
    (pmw3360_init datasheet scripted
      { State.initial [9, 9, 9, 9, 9, 0x42, 0x01] 0 with motion_bursting := true }
      ).2.motion_bursting = false ∧
    (pmw3360_init datasheet scripted (State.initial [9, 9, 9, 9, 9, 0x42, 0x02] 0)).1
        = false :=
  have hok := C4_init_identity_check datasheet scripted
    { State.initial [9, 9, 9, 9, 9, 0x42, 0x01] 0 with motion_bursting := true }
    9 9 9 9 9 0x42 0x01 [0x42, 0x01] [] (by decide) (by decide) (by decide)
  have hbad := C4_init_identity_check datasheet scripted
    (State.initial [9, 9, 9, 9, 9, 0x42, 0x02] 0)
    9 9 9 9 9 0x42 0x02 [0x42, 0x02] [] (by decide) (by decide) (by decide)
  ⟨hok.1.mpr ⟨rfl, rfl⟩, hok.2.2.2.2,
    Bool.eq_false_iff.mpr (fun h => absurd (hbad.1.mp h).2 (by decide))⟩

/-- C6: `pmw3360_motion_burst` returns true for every prior state and every
sensor response; and when it is the first burst call after a
`pmw3360_motion_read` (whatever that read returned), it performs exactly one
register write, of data 0 to `pmw3360_Motion_Burst`, whose frame opens the bus
activity of the call and precedes the streaming transaction. -/
theorem C6_burst_after_discrete_read {σ : Type} (cfg : Config) (dev : Sensor σ)
    (d0 d1 : pmw3360_motion_t) (st : State σ) (hreg : cfg.regs_distinct) :
    (∀ (d : pmw3360_motion_t) (s : State σ), (pmw3360_motion_burst cfg dev d s).1 = true) ∧
    new_ops (pmw3360_motion_read cfg dev d0 st).2.2
      (pmw3360_motion_burst cfg dev d1 (pmw3360_motion_read cfg dev d0 st).2.2).2.2 =
      [RegOp.write cfg.pmw3360_Motion_Burst 0] ∧
    ∃ data : List Nat, data.length = 6 ∧
      new_bus (pmw3360_motion_read cfg dev d0 st).2.2
        (pmw3360_motion_burst cfg dev d1 (pmw3360_motion_read cfg dev d0 st).2.2).2.2 =
        [Ev.spi_start, Ev.spim_start [cfg.pmw3360_Motion_Burst ||| 0x80, 0] [],
         Ev.wait_us 35, Ev.spi_stop, Ev.wait_us 180,
         Ev.spi_start, Ev.spim_start [cfg.pmw3360_Motion_Burst] [], Ev.wait_us 35,
         Ev.spim_start [] data, Ev.spim_start [] [], Ev.spim_start [] [],
         Ev.spi_stop, Ev.wait_us 1] := by
  have hmb : cfg.pmw3360_Motion ≠ cfg.pmw3360_Motion_Burst := by
    unfold Config.regs_distinct at hreg
    simp only [List.nodup_cons, List.mem_cons, not_or] at hreg
    exact hreg.2.2.1.2.2.2.2.2.2.2.2.2.1
  have hflag := motion_read_flag cfg dev d0 st hmb
  refine ⟨fun d s => burst_ret cfg dev d s, ?_, ?_⟩
  · apply new_ops_append
    rw [burst_ops, hflag]
    rfl
  · obtain ⟨data, hlen, -, hbus, -⟩ :=
      burst_bus cfg dev d1 (pmw3360_motion_read cfg dev d0 st).2.2
    refine ⟨data, hlen, ?_⟩
    apply new_bus_append
    rw [hbus, hflag]
    rfl

/-- Witness of C6: with the data sheet's addresses, a burst read that follows a
discrete read (here one that reported no motion) issues the burst entry
write. -/
theorem C6_witness :
    new_ops (pmw3360_motion_read datasheet scripted { x := 0, y := 0 }
        (State.initial [0, 1, 2, 3, 4, 5, 6] 0)).2.2
      (pmw3360_motion_burst datasheet scripted { x := 0, y := 0 }
        (pmw3360_motion_read datasheet scripted { x := 0, y := 0 }
          (State.initial [0, 1, 2, 3, 4, 5, 6] 0)).2.2).2.2 =
      [RegOp.write 0x50 0] :=
  (C6_burst_after_discrete_read datasheet scripted { x := 0, y := 0 } { x := 0, y := 0 }
    (State.initial [0, 1, 2, 3, 4, 5, 6] 0) (by decide)).2.1

/-- C7: for every firmware image of length `N` (also `N = 0`), the part of the
bus log of `pmw3360_srom_upload` between the burst-load command with its 15 us
wait and the end of that transaction is exactly `N` transfers, the `i`-th
sending the single byte `image[i]` and receiving nothing, each immediately
followed by a 15 us wait; no transfer there carries more than one byte. -/
theorem C7_srom_upload_byte_loop {σ : Type} (cfg : Config) (dev : Sensor σ)
    (srom : List Nat) (st : State σ) :
    (∃ id : Nat, new_bus st (pmw3360_srom_upload cfg dev srom st) =
      [Ev.spi_start, Ev.spim_start [cfg.pmw3360_Config2 ||| 0x80, 0x00] [], Ev.wait_us 35,
       Ev.spi_stop, Ev.wait_us 180,
       Ev.spi_start, Ev.spim_start [cfg.pmw3360_SROM_Enable ||| 0x80, 0x1d] [],
       Ev.wait_us 35, Ev.spi_stop, Ev.wait_us 180,
       Ev.wait_us 10,
       Ev.spi_start, Ev.spim_start [cfg.pmw3360_SROM_Enable ||| 0x80, 0x18] [],
       Ev.wait_us 35, Ev.spi_stop, Ev.wait_us 180,
       Ev.spi_start, Ev.spim_start [cfg.pmw3360_SROM_Load_Burst ||| 0x80] [],
       Ev.wait_us 15] ++
      srom.flatMap (fun b => [Ev.spim_start [b] [], Ev.wait_us 15]) ++
      [Ev.spi_stop, Ev.wait_us 200,
       Ev.spi_start, Ev.spim_start [cfg.pmw3360_SROM_ID &&& 0x7f] [], Ev.wait_us 160,
       Ev.spim_start [] [id], Ev.wait_us 1, Ev.spi_stop, Ev.wait_us 19,
       Ev.spi_start, Ev.spim_start [cfg.pmw3360_Config2 ||| 0x80, 0x00] [], Ev.wait_us 35,
       Ev.spi_stop, Ev.wait_us 180,
       Ev.wait_ms 10]) ∧
    (srom.flatMap (fun b => [Ev.spim_start [b] [], Ev.wait_us 15])).length
      = 2 * srom.length ∧
    (∀ i : Nat, i < srom.length →
      (srom.flatMap (fun b => [Ev.spim_start [b] [], Ev.wait_us 15]))[2 * i]? =
          some (Ev.spim_start [srom.getD i 0] []) ∧
      (srom.flatMap (fun b => [Ev.spim_start [b] [], Ev.wait_us 15]))[2 * i + 1]? =
          some (Ev.wait_us 15)) := by
  refine ⟨⟨?_, ?hbus⟩, srom_frames_length srom, srom_frames_get srom⟩
  case hbus =>
    apply new_bus_append
    simp only [pmw3360_srom_upload, wait_ms_bus, wait_us_bus, reg_write_bus, reg_read_bus,
      spi_stop_bus, srom_loop_bus, spim_start_bus, spi_start_bus, spim_start_zero,
      List.append_assoc, List.singleton_append, List.cons_append, List.nil_append]
    exact rfl

/-- Witness of C7: a three byte image gives three one byte transfers, each
followed by its 15 us wait, in index order. -/
theorem C7_witness :
    ([0xa1, 0xb2, 0xc3].flatMap (fun b => [Ev.spim_start [b] [], Ev.wait_us 15]))[2 * 1]? =
        some (Ev.spim_start [[0xa1, 0xb2, 0xc3].getD 1 0] []) ∧
    ([0xa1, 0xb2, 0xc3].flatMap (fun b => [Ev.spim_start [b] [], Ev.wait_us 15]))[2 * 1 + 1]? =
        some (Ev.wait_us 15) :=
  (C7_srom_upload_byte_loop datasheet scripted [0xa1, 0xb2, 0xc3]
    (State.initial [0x04] 0)).2.2 1 (by decide)

/-- Counterexample to C8 as stated: from the initial counters (count 0, window
timestamp 0), three polls at 10 ms, 500 ms and exactly 1000 ms leave
`pmw3360_scan_rate_get()` at 0 and the running count at 3: the window has not
closed at an elapsed time of exactly 1000 ms. -/
theorem C8_counterexample :
    (pmw3360_scan_rate_get
      (scan_polls datasheet [10, 500, 1000] (State.initial ([] : List Nat) 0))).1 = 0 ∧
    (scan_polls datasheet [10, 500, 1000]
      (State.initial ([] : List Nat) 0)).pmw3360_scan_count = 3 ∧
    ¬ ((pmw3360_scan_rate_get
        (scan_polls datasheet [10, 500, 1000] (State.initial ([] : List Nat) 0))).1 = 3 ∧
      (scan_polls datasheet [10, 500, 1000]
        (State.initial ([] : List Nat) 0)).pmw3360_scan_count = 0) := by
  decide

/-- C8 (amended): starting from a freshly opened window (running count 0,
window timestamp `t0`), if `K >= 1` calls of `pmw3360_scan_perf_task` are
issued, the first `K-1` at times at most 1000 ms after `t0` and the `K`-th at
a time more than 1000 ms after `t0` (for instance `t0 + 1001`), then right
after the `K`-th call `pmw3360_scan_rate_get()` returns `K` (as a 32 bit
count) and the running count is 0 again: the window closes as soon as the
elapsed time is greater than 1000 ms.  Here `K = ds.length + 1`, `ds` the
offsets of the first `K-1` calls and `dK` that of the last. -/
theorem C8_scan_rate_window {σ : Type} (cfg : Config) (st : State σ) (ds : List Nat)
    (dK : Nat) (hcount : st.pmw3360_scan_count = 0) (hds : ∀ d ∈ ds, d ≤ 1000)
    (hK : 1000 < dK) (hK32 : dK < 4294967296) :
    (pmw3360_scan_rate_get (scan_polls cfg
      (ds.map (fun d => st.pmw3360_timer + d) ++ [st.pmw3360_timer + dK]) st)).1
        = (ds.length + 1) % 4294967296 ∧
    (ds.length + 1 < 4294967296 →
      (pmw3360_scan_rate_get (scan_polls cfg
        (ds.map (fun d => st.pmw3360_timer + d) ++ [st.pmw3360_timer + dK]) st)).1
          = ds.length + 1) ∧
    (scan_polls cfg
      (ds.map (fun d => st.pmw3360_timer + d) ++ [st.pmw3360_timer + dK])
      st).pmw3360_scan_count = 0 := by
  obtain ⟨htimer, hcnt, -⟩ := scan_polls_open cfg ds st hds (by omega)
  rw [hcount, Nat.zero_add] at hcnt
  have hlast : scan_polls cfg [st.pmw3360_timer + dK]
      (scan_polls cfg (ds.map (fun d => st.pmw3360_timer + d)) st) =
      pmw3360_scan_perf_task cfg
        { scan_polls cfg (ds.map (fun d => st.pmw3360_timer + d)) st with
          clock := st.pmw3360_timer + dK } := by
    simp [scan_polls]
  have hdiff : TIMER_DIFF_32 (to_uint32 (st.pmw3360_timer + dK))
      (scan_polls cfg (ds.map (fun d => st.pmw3360_timer + d)) st).pmw3360_timer > 1000 := by
    rw [htimer, timer_diff_offset _ _ hK32]
    exact hK
  obtain ⟨hl, hz, -⟩ := perf_close cfg
    { scan_polls cfg (ds.map (fun d => st.pmw3360_timer + d)) st with
      clock := st.pmw3360_timer + dK } hdiff
  have hval : (pmw3360_scan_rate_get (scan_polls cfg
      (ds.map (fun d => st.pmw3360_timer + d) ++ [st.pmw3360_timer + dK]) st)).1
        = (ds.length + 1) % 4294967296 := by
    rw [scan_polls_append, hlast]
    show (pmw3360_scan_perf_task cfg _).pmw3360_last_count = _
    rw [hl]
    show to_uint32 ((scan_polls cfg (ds.map (fun d => st.pmw3360_timer + d))
      st).pmw3360_scan_count + 1) = _
    rw [hcnt]
    unfold to_uint32
    omega
  refine ⟨hval, fun hlt => ?_, ?_⟩
  · rw [hval]; exact Nat.mod_eq_of_lt hlt
  · rw [scan_polls_append, hlast]
    exact hz

/-- Witness of C8: window opened at `t0 = 5000`; polls at 5010 and 6000 (elapsed
10 and 1000 ms) and a third at 6001 (elapsed 1001 ms): the rate reads 3 and
the running count is 0. -/
theorem C8_witness :
    (pmw3360_scan_rate_get (scan_polls datasheet [5010, 6000, 6001]
      { State.initial ([] : List Nat) 0 with pmw3360_timer := 5000 })).1 = 3 ∧
    (scan_polls datasheet [5010, 6000, 6001]
      { State.initial ([] : List Nat) 0 with pmw3360_timer := 5000 }).pmw3360_scan_count = 0 :=
  have h := C8_scan_rate_window datasheet
    { State.initial ([] : List Nat) 0 with pmw3360_timer := 5000 } [10, 1000] 1001
    rfl (by decide) (by decide) (by decide)
  ⟨h.2.1 (by decide), h.2.2⟩


/-- Counterexample to C11 as stated: with the burst flag already true, the bus
log of `pmw3360_motion_burst` has, after the receive of 6 bytes and before the
end of the transaction, two more transfer calls (which send and receive
nothing); it is not the six call sequence of the claim. -/
theorem C11_counterexample :
    new_bus { State.initial [1, 2, 3, 4, 5, 6] 0 with motion_bursting := true }
      (pmw3360_motion_burst datasheet scripted { x := 0, y := 0 }
        { State.initial [1, 2, 3, 4, 5, 6] 0 with motion_bursting := true }).2.2 =
      [Ev.spi_start, Ev.spim_start [0x50] [], Ev.wait_us 35,
       Ev.spim_start [] [1, 2, 3, 4, 5, 6], Ev.spim_start [] [], Ev.spim_start [] [],
       Ev.spi_stop, Ev.wait_us 1] ∧
    ¬ ∃ data : List Nat,
      new_bus { State.initial [1, 2, 3, 4, 5, 6] 0 with motion_bursting := true }
        (pmw3360_motion_burst datasheet scripted { x := 0, y := 0 }
          { State.initial [1, 2, 3, 4, 5, 6] 0 with motion_bursting := true }).2.2 =
        [Ev.spi_start, Ev.spim_start [0x50] [], Ev.wait_us 35,
         Ev.spim_start [] data, Ev.spi_stop, Ev.wait_us 1] := by
  have h : new_bus { State.initial [1, 2, 3, 4, 5, 6] 0 with motion_bursting := true }
      (pmw3360_motion_burst datasheet scripted { x := 0, y := 0 }
        { State.initial [1, 2, 3, 4, 5, 6] 0 with motion_bursting := true }).2.2 =
      [Ev.spi_start, Ev.spim_start [0x50] [], Ev.wait_us 35,
       Ev.spim_start [] [1, 2, 3, 4, 5, 6], Ev.spim_start [] [], Ev.spim_start [] [],
       Ev.spi_stop, Ev.wait_us 1] := by decide
  refine ⟨h, ?_⟩
  rintro ⟨data, hd⟩
  rw [h] at hd
  have hlen := congrArg List.length hd
  simp at hlen

/-- C11 (amended): when the burst flag is already true on entry, the bus log of
`pmw3360_motion_burst` is a single transaction consisting of exactly: begin
transaction; send the one byte burst-read command `pmw3360_Motion_Burst`; wait
35 us; one receive of 6 bytes; two further transfer calls that send and receive
nothing; end transaction; wait 1 us; and no register read or register write is
issued in the call. -/
theorem C11_burst_transaction {σ : Type} (cfg : Config) (dev : Sensor σ)
    (d : pmw3360_motion_t) (st : State σ) (hflag : st.motion_bursting = true) :
    (∃ data : List Nat, data.length = 6 ∧
      new_bus st (pmw3360_motion_burst cfg dev d st).2.2 =
        [Ev.spi_start, Ev.spim_start [cfg.pmw3360_Motion_Burst] [], Ev.wait_us 35,
         Ev.spim_start [] data, Ev.spim_start [] [], Ev.spim_start [] [],
         Ev.spi_stop, Ev.wait_us 1]) ∧
    new_ops st (pmw3360_motion_burst cfg dev d st).2.2 = [] := by
  constructor
  · obtain ⟨data, hlen, -, hbus, -⟩ := burst_bus cfg dev d st
    refine ⟨data, hlen, ?_⟩
    apply new_bus_append
    rw [hbus, hflag]
    rfl
  · apply new_ops_append
    rw [burst_ops, hflag]
    rfl

/-- Witness of C11: a burst read entered with the flag already true, the sensor
answering `1, 2, 3, 4, 5, 6`, performs no register access. -/
theorem C11_witness :
    new_ops { State.initial [1, 2, 3, 4, 5, 6] 0 with motion_bursting := true }
      (pmw3360_motion_burst datasheet scripted { x := 0, y := 0 }
        { State.initial [1, 2, 3, 4, 5, 6] 0 with motion_bursting := true }).2.2 = [] :=
  (C11_burst_transaction datasheet scripted { x := 0, y := 0 }
    { State.initial [1, 2, 3, 4, 5, 6] 0 with motion_bursting := true } rfl).2


/-- C13: for every sensor response, `pmw3360_init` performs exactly these
register accesses, in order: write `0x5a` to `Power_Up_Reset`; (wait 50 ms;)
read `Motion`, `Delta_X_L`, `Delta_X_H`, `Delta_Y_L`, `Delta_Y_H`; write `0x00`
to `Config2`; read `Product_ID`; read `Revision_ID`.  On the bus the sequence
comes after `spim_init`, `setPinOutput` and a begin-transaction, the 50 ms wait
sits between the write and the first read, and an end-transaction follows the
last read; every register access is the frame of C9 or C10. -/
theorem C13_init_sequence {σ : Type} (cfg : Config) (dev : Sensor σ) (st : State σ) :
    ∃ b0 b1 b2 b3 b4 pid rev : Nat,
      new_ops st (pmw3360_init cfg dev st).2 =
        [RegOp.write cfg.pmw3360_Power_Up_Reset 0x5a,
         RegOp.read cfg.pmw3360_Motion b0, RegOp.read cfg.pmw3360_Delta_X_L b1,
         RegOp.read cfg.pmw3360_Delta_X_H b2, RegOp.read cfg.pmw3360_Delta_Y_L b3,
         RegOp.read cfg.pmw3360_Delta_Y_H b4, RegOp.write cfg.pmw3360_Config2 0x00,
         RegOp.read cfg.pmw3360_Product_ID pid, RegOp.read cfg.pmw3360_Revision_ID rev] ∧
      new_bus st (pmw3360_init cfg dev st).2 =
        [Ev.spim_init, Ev.setPinOutput, Ev.spi_start] ++
        write_frame cfg.pmw3360_Power_Up_Reset 0x5a ++
        [Ev.wait_ms 50] ++
        read_frame cfg.pmw3360_Motion b0 ++ read_frame cfg.pmw3360_Delta_X_L b1 ++
        read_frame cfg.pmw3360_Delta_X_H b2 ++ read_frame cfg.pmw3360_Delta_Y_L b3 ++
        read_frame cfg.pmw3360_Delta_Y_H b4 ++
        write_frame cfg.pmw3360_Config2 0x00 ++
        read_frame cfg.pmw3360_Product_ID pid ++ read_frame cfg.pmw3360_Revision_ID rev ++
        [Ev.spi_stop] := by
  refine ⟨?_, ?_, ?_, ?_, ?_, ?_, ?_, ?hops, ?hbus⟩
  case hops =>
    apply new_ops_append
    simp only [pmw3360_init, spi_stop_ops, spi_start_ops, wait_ms_ops, reg_read_ops,
      reg_write_ops, spim_init_ops, setPinOutput_ops, List.append_assoc,
      List.singleton_append, List.cons_append, List.nil_append]
    exact rfl
  case hbus =>
    apply new_bus_append
    simp only [pmw3360_init, spi_stop_bus, spi_start_bus, wait_ms_bus, reg_read_bus,
      reg_write_bus, spim_init_bus, setPinOutput_bus, write_frame, read_frame,
      List.append_assoc, List.singleton_append, List.cons_append, List.nil_append]

/-- C15: the burst-mode-entry write is a one-time setup step.  For every
`n >= 1` and every starting state, a run of `n` consecutive
`pmw3360_motion_burst` calls issues the register write to
`pmw3360_Motion_Burst` exactly once if the burst flag was false at the start
and not at all if it was true: the register log of the run is that one write
or nothing, the bus log of the run is the write frame (or nothing) followed by
the `n` streaming transactions and nothing else, and the sensor receives the
write before the first streaming transaction (or not at all).  The write
occurs only in the first call: each later call adds one streaming transaction
to the bus and nothing to the register log.  The flag is true after every call
of the run. -/
theorem C15_burst_entry_once {σ : Type} (cfg : Config) (dev : Sensor σ) (n : Nat)
    (d : pmw3360_motion_t) (st : State σ) (hn : 1 ≤ n) :
    new_ops st (burst_calls cfg dev n d st).2 =
      (if st.motion_bursting then [] else [RegOp.write cfg.pmw3360_Motion_Burst 0]) ∧
    new_bus st (burst_calls cfg dev n d st).2 =
      (if st.motion_bursting then [] else write_frame cfg.pmw3360_Motion_Burst 0) ++
      (sensor_bursts dev cfg.pmw3360_Motion_Burst n
          (if st.motion_bursting then st.sensor
           else sensor_reg_write dev st.sensor cfg.pmw3360_Motion_Burst 0)).1.flatMap
        (burst_frame cfg.pmw3360_Motion_Burst) ∧
    (sensor_bursts dev cfg.pmw3360_Motion_Burst n
        (if st.motion_bursting then st.sensor
         else sensor_reg_write dev st.sensor cfg.pmw3360_Motion_Burst 0)).1.length = n ∧
    (burst_calls cfg dev n d st).2.sensor =
      (sensor_bursts dev cfg.pmw3360_Motion_Burst n
        (if st.motion_bursting then st.sensor
         else sensor_reg_write dev st.sensor cfg.pmw3360_Motion_Burst 0)).2 ∧
    new_ops st (burst_calls cfg dev 1 d st).2 =
      (if st.motion_bursting then [] else [RegOp.write cfg.pmw3360_Motion_Burst 0]) ∧
    (∀ k : Nat, 1 ≤ k → k ≤ n →
      (burst_calls cfg dev k d st).2.motion_bursting = true ∧
      (burst_calls cfg dev k d st).2.ops = (burst_calls cfg dev 1 d st).2.ops) ∧
    (∀ k : Nat, 1 ≤ k → k < n →
      new_bus (burst_calls cfg dev k d st).2 (burst_calls cfg dev (k + 1) d st).2 =
        burst_frame cfg.pmw3360_Motion_Burst
          (sensor_burst dev (burst_calls cfg dev k d st).2.sensor
            cfg.pmw3360_Motion_Burst).1) := by
  obtain ⟨m, rfl⟩ : ∃ m, n = m + 1 := ⟨n - 1, by omega⟩
  refine ⟨new_ops_append _ _ _ (burst_calls_run cfg dev m d st).2,
    new_bus_append _ _ _ (burst_calls_sensor cfg dev m d st).1,
    sensor_bursts_length dev _ _ _,
    (burst_calls_sensor cfg dev m d st).2,
    new_ops_append _ _ _ (burst_calls_run cfg dev 0 d st).2, ?_, ?_⟩
  · intro k hk _
    obtain ⟨j, rfl⟩ : ∃ j, k = j + 1 := ⟨k - 1, by omega⟩
    refine ⟨(burst_calls_run cfg dev j d st).1, ?_⟩
    rw [(burst_calls_run cfg dev j d st).2, (burst_calls_run cfg dev 0 d st).2]
  · intro k hk _
    obtain ⟨j, rfl⟩ : ∃ j, k = j + 1 := ⟨k - 1, by omega⟩
    apply new_bus_append
    rw [burst_calls_succ cfg dev (j + 1) d st]
    obtain ⟨hb, -⟩ := burst_sensor cfg dev (burst_calls cfg dev (j + 1) d st).1
      (burst_calls cfg dev (j + 1) d st).2
    rw [hb, (burst_calls_run cfg dev j d st).1]
    simp only [if_true, List.nil_append]

/-- Witness of C15: from the initial state (flag false) and a sensor that
answers `1, 2, ..., 12`, two burst reads in a row log a single register write,
`(Motion_Burst, 0)`, and put on the bus the write frame followed by the two
streaming transactions. -/
theorem C15_witness :
    new_ops (State.initial [1, 2, 3, 4, 5, 6, 7, 8, 9, 10, 11, 12] 0)
      (burst_calls datasheet scripted 2 { x := 0, y := 0 }
        (State.initial [1, 2, 3, 4, 5, 6, 7, 8, 9, 10, 11, 12] 0)).2 =
      [RegOp.write 0x50 0] ∧
    new_bus (State.initial [1, 2, 3, 4, 5, 6, 7, 8, 9, 10, 11, 12] 0)
      (burst_calls datasheet scripted 2 { x := 0, y := 0 }
        (State.initial [1, 2, 3, 4, 5, 6, 7, 8, 9, 10, 11, 12] 0)).2 =
      [Ev.spi_start, Ev.spim_start [0xd0, 0] [], Ev.wait_us 35, Ev.spi_stop,
       Ev.wait_us 180,
       Ev.spi_start, Ev.spim_start [0x50] [], Ev.wait_us 35,
       Ev.spim_start [] [1, 2, 3, 4, 5, 6], Ev.spim_start [] [], Ev.spim_start [] [],
       Ev.spi_stop, Ev.wait_us 1,
       Ev.spi_start, Ev.spim_start [0x50] [], Ev.wait_us 35,
       Ev.spim_start [] [7, 8, 9, 10, 11, 12], Ev.spim_start [] [], Ev.spim_start [] [],
       Ev.spi_stop, Ev.wait_us 1] :=
  have h := C15_burst_entry_once datasheet scripted 2 { x := 0, y := 0 }
    (State.initial [1, 2, 3, 4, 5, 6, 7, 8, 9, 10, 11, 12] 0) (by decide)
  ⟨h.1, h.2.1.trans (by decide)⟩

/-- C18: step behaviour of `pmw3360_scan_perf_task`, for every counter state
(timer, count, last) and every 32 bit timer reading `now`, with
`elapsed = (now - timer) mod 2^32`: if `elapsed > 1000` the counters become
`timer = now`, `count = 0`, `last = (count + 1) mod 2^32`; otherwise only the
count changes, to `(count + 1) mod 2^32`; and `pmw3360_scan_rate_get` returns
`last` and changes nothing. -/
theorem C18_scan_perf_step {σ : Type} (cfg : Config) (st : State σ)
    (hnow : st.clock < 4294967296) :
    (((st.clock : Int) - (st.pmw3360_timer : Int)) % 4294967296 > 1000 →
      (pmw3360_scan_perf_task cfg st).pmw3360_timer = st.clock ∧
      (pmw3360_scan_perf_task cfg st).pmw3360_scan_count = 0 ∧
      (pmw3360_scan_perf_task cfg st).pmw3360_last_count =
        (st.pmw3360_scan_count + 1) % 4294967296) ∧
    (¬ ((st.clock : Int) - (st.pmw3360_timer : Int)) % 4294967296 > 1000 →
      pmw3360_scan_perf_task cfg st =
        { st with pmw3360_scan_count := (st.pmw3360_scan_count + 1) % 4294967296 }) ∧
    pmw3360_scan_rate_get st = (st.pmw3360_last_count, st) := by
  have hd := timer_diff_int st.clock st.pmw3360_timer
  refine ⟨fun h => ?_, fun h => ?_, rfl⟩
  · have h1 : TIMER_DIFF_32 (to_uint32 st.clock) st.pmw3360_timer > 1000 := by omega
    obtain ⟨hl, hz, ht⟩ := perf_close cfg st h1
    refine ⟨?_, hz, hl⟩
    rw [ht]
    exact Nat.mod_eq_of_lt hnow
  · have h1 : TIMER_DIFF_32 (to_uint32 st.clock) st.pmw3360_timer ≤ 1000 := by omega
    exact perf_open cfg st h1

/-- Witness of C18: timer 5000, count 41, last 7; at `now = 6001` (elapsed 1001)
the window closes with `last = 42`, `count = 0`, `timer = 6001`. -/
theorem C18_witness :
    (pmw3360_scan_perf_task datasheet
      { State.initial ([] : List Nat) 6001 with
        pmw3360_timer := 5000, pmw3360_scan_count := 41, pmw3360_last_count := 7
      }).pmw3360_timer = 6001 ∧
    (pmw3360_scan_perf_task datasheet
      { State.initial ([] : List Nat) 6001 with
        pmw3360_timer := 5000, pmw3360_scan_count := 41, pmw3360_last_count := 7
      }).pmw3360_scan_count = 0 ∧
    (pmw3360_scan_perf_task datasheet
      { State.initial ([] : List Nat) 6001 with
        pmw3360_timer := 5000, pmw3360_scan_count := 41, pmw3360_last_count := 7
      }).pmw3360_last_count = (41 + 1) % 4294967296 :=
  (C18_scan_perf_step datasheet
    { State.initial ([] : List Nat) 6001 with
      pmw3360_timer := 5000, pmw3360_scan_count := 41, pmw3360_last_count := 7 }
    (by decide)).1 (by decide)

/-- C17: the scan-rate instrumentation is purely observational.  For every
prior driver state, sensor, timer value and counter values, `pmw3360_motion_read`
and `pmw3360_motion_burst` built with `DEBUG_PMW3360_SCAN_RATE` give the same
return value, the same output sample, the same burst flag and the same bus log
as built without it; the final state of the instrumented build is the final
state of the plain build with the scan-rate counters (and the diagnostic
console) set as `pmw3360_scan_perf_task` leaves them, and the plain build
leaves those untouched; without `CONSOLE_ENABLE` the console is untouched as
well, so that the two builds differ in the three counters only. -/
theorem C17_scan_rate_observational {σ : Type} (cfg : Config) (dev : Sensor σ)
    (d : pmw3360_motion_t) (st : State σ) :
    ((pmw3360_motion_read { cfg with DEBUG_PMW3360_SCAN_RATE := true } dev d st).1 =
        (pmw3360_motion_read { cfg with DEBUG_PMW3360_SCAN_RATE := false } dev d st).1 ∧
     (pmw3360_motion_read { cfg with DEBUG_PMW3360_SCAN_RATE := true } dev d st).2.1 =
        (pmw3360_motion_read { cfg with DEBUG_PMW3360_SCAN_RATE := false } dev d st).2.1 ∧
     (pmw3360_motion_read { cfg with DEBUG_PMW3360_SCAN_RATE := true }
          dev d st).2.2.motion_bursting =
        (pmw3360_motion_read { cfg with DEBUG_PMW3360_SCAN_RATE := false }
          dev d st).2.2.motion_bursting ∧
     (pmw3360_motion_read { cfg with DEBUG_PMW3360_SCAN_RATE := true } dev d st).2.2.bus =
        (pmw3360_motion_read { cfg with DEBUG_PMW3360_SCAN_RATE := false } dev d st).2.2.bus ∧
     (pmw3360_motion_read { cfg with DEBUG_PMW3360_SCAN_RATE := true } dev d st).2.2 =
        with_counters
          (pmw3360_motion_read { cfg with DEBUG_PMW3360_SCAN_RATE := false } dev d st).2.2
          (pmw3360_scan_perf_task cfg st) ∧
     with_counters
        (pmw3360_motion_read { cfg with DEBUG_PMW3360_SCAN_RATE := false } dev d st).2.2 st =
        (pmw3360_motion_read { cfg with DEBUG_PMW3360_SCAN_RATE := false } dev d st).2.2) ∧
    ((pmw3360_motion_burst { cfg with DEBUG_PMW3360_SCAN_RATE := true } dev d st).1 =
        (pmw3360_motion_burst { cfg with DEBUG_PMW3360_SCAN_RATE := false } dev d st).1 ∧
     (pmw3360_motion_burst { cfg with DEBUG_PMW3360_SCAN_RATE := true } dev d st).2.1 =
        (pmw3360_motion_burst { cfg with DEBUG_PMW3360_SCAN_RATE := false } dev d st).2.1 ∧
     (pmw3360_motion_burst { cfg with DEBUG_PMW3360_SCAN_RATE := true }
          dev d st).2.2.motion_bursting =
        (pmw3360_motion_burst { cfg with DEBUG_PMW3360_SCAN_RATE := false }
          dev d st).2.2.motion_bursting ∧
     (pmw3360_motion_burst { cfg with DEBUG_PMW3360_SCAN_RATE := true } dev d st).2.2.bus =
        (pmw3360_motion_burst { cfg with DEBUG_PMW3360_SCAN_RATE := false } dev d st).2.2.bus ∧
     (pmw3360_motion_burst { cfg with DEBUG_PMW3360_SCAN_RATE := true } dev d st).2.2 =
        with_counters
          (pmw3360_motion_burst { cfg with DEBUG_PMW3360_SCAN_RATE := false } dev d st).2.2
          (pmw3360_scan_perf_task cfg st) ∧
     with_counters
        (pmw3360_motion_burst { cfg with DEBUG_PMW3360_SCAN_RATE := false } dev d st).2.2 st =
        (pmw3360_motion_burst { cfg with DEBUG_PMW3360_SCAN_RATE := false } dev d st).2.2) ∧
    (cfg.CONSOLE_ENABLE = false →
      (pmw3360_scan_perf_task cfg st).console = st.console) := by
  have hr := motion_read_debug_state cfg dev d st
  have hb := motion_burst_debug_state cfg dev d st
  refine ⟨⟨?_, ?_, ?_, ?_, ?_, motion_read_counters _ dev d st rfl⟩,
    ⟨?_, ?_, ?_, ?_, ?_, motion_burst_counters _ dev d st rfl⟩, perf_console cfg st⟩
  · exact congrArg (fun r => r.1) hr
  · exact congrArg (fun r => r.2.1) hr
  · exact congrArg (fun r => r.2.2.motion_bursting) hr
  · exact congrArg (fun r => r.2.2.bus) hr
  · exact congrArg (fun r => r.2.2) hr
  · exact congrArg (fun r => r.1) hb
  · exact congrArg (fun r => r.2.1) hb
  · exact congrArg (fun r => r.2.2.motion_bursting) hb
  · exact congrArg (fun r => r.2.2.bus) hb
  · exact congrArg (fun r => r.2.2) hb


/-- C16: reachable-state invariant of the burst flag.  Starting from a state
with the flag false (the initial state), after any finite sequence of calls to
the public operations, made at any timer readings, the flag is true if and
only if the sequence contains a `pmw3360_motion_burst` call and, since the most
recent one, no register read of an address other than `pmw3360_Motion_Burst`
has been logged (whether made directly or inside `pmw3360_init`,
`pmw3360_srom_upload`, `pmw3360_cpi_get` or `pmw3360_motion_read`). -/
theorem C16_burst_flag_invariant {σ : Type} (cfg : Config) (dev : Sensor σ)
    (calls : List (Nat × Call)) (st : State σ) (h0 : st.motion_bursting = false) :
    (run_calls cfg dev calls st).motion_bursting = true ↔
      ∃ (pre : List (Nat × Call)) (t : Nat) (d : pmw3360_motion_t)
        (post : List (Nat × Call)),
        calls = pre ++ (t, Call.motion_burst d) :: post ∧
        (∀ c ∈ post, c.2.is_burst = false) ∧
        ∀ a v : Nat,
          RegOp.read a v ∈
            new_ops (run_calls cfg dev (pre ++ [(t, Call.motion_burst d)]) st)
              (run_calls cfg dev calls st) →
          a = cfg.pmw3360_Motion_Burst := by
  have key : ∀ (pre : List (Nat × Call)) (t : Nat) (d : pmw3360_motion_t)
      (post : List (Nat × Call)), calls = pre ++ (t, Call.motion_burst d) :: post →
      (∀ c ∈ post, c.2.is_burst = false) →
      ((run_calls cfg dev calls st).motion_bursting = true ↔
        ∀ a v : Nat,
          RegOp.read a v ∈
            new_ops (run_calls cfg dev (pre ++ [(t, Call.motion_burst d)]) st)
              (run_calls cfg dev calls st) →
          a = cfg.pmw3360_Motion_Burst) := by
    intro pre t d post hsplit hpost
    have hrun : run_calls cfg dev calls st = run_calls cfg dev post
        (run_calls cfg dev (pre ++ [(t, Call.motion_burst d)]) st) := by
      rw [← run_calls_append, hsplit, List.append_assoc, List.singleton_append]
    obtain ⟨l, hops, hflag⟩ := step_run_calls cfg dev post hpost
      (run_calls cfg dev (pre ++ [(t, Call.motion_burst d)]) st)
    rw [← hrun] at hops hflag
    rw [new_ops_append _ _ l hops, hflag, run_calls_burst_last]
    simp
  constructor
  · intro hf
    rcases split_last_burst calls with hno | ⟨pre, t, d, post, hsplit, hpost⟩
    · exfalso
      obtain ⟨l, -, hflag⟩ := step_run_calls cfg dev calls hno st
      have := (hflag.mp hf).1
      rw [h0] at this
      exact Bool.false_ne_true this
    · exact ⟨pre, t, d, post, hsplit, hpost, (key pre t d post hsplit hpost).mp hf⟩
  · rintro ⟨pre, t, d, post, hsplit, hpost, hreads⟩
    exact (key pre t d post hsplit hpost).mpr hreads

/-- Witness of C16: from the initial state, burst read, then a register write,
then a read of `Motion_Burst` itself leave the flag true; a read of `Motion`
after that clears it. -/
theorem C16_witness :
    (run_calls datasheet scripted
      [(0, Call.motion_burst { x := 0, y := 0 }), (1, Call.reg_write 0x0f 0x20),
       (2, Call.reg_read 0x50)]
      (State.initial [] 0)).motion_bursting = true ∧
    (run_calls datasheet scripted
      [(0, Call.motion_burst { x := 0, y := 0 }), (1, Call.reg_write 0x0f 0x20),
       (2, Call.reg_read 0x50), (3, Call.reg_read 0x02)]
      (State.initial [] 0)).motion_bursting = false :=
  ⟨(C16_burst_flag_invariant datasheet scripted
      [(0, Call.motion_burst { x := 0, y := 0 }), (1, Call.reg_write 0x0f 0x20),
       (2, Call.reg_read 0x50)] (State.initial [] 0) rfl).mpr
      ⟨[], 0, { x := 0, y := 0 }, [(1, Call.reg_write 0x0f 0x20), (2, Call.reg_read 0x50)],
        rfl, by decide, fun a v hm => by
          have e : new_ops
              (run_calls datasheet scripted ([] ++ [(0, Call.motion_burst { x := 0, y := 0 })])
                (State.initial [] 0))
              (run_calls datasheet scripted
                [(0, Call.motion_burst { x := 0, y := 0 }), (1, Call.reg_write 0x0f 0x20),
                 (2, Call.reg_read 0x50)] (State.initial [] 0)) =
              [RegOp.write 0x0f 0x20, RegOp.read 0x50 0] := by decide
          rw [e] at hm
          simp at hm
          exact hm.1⟩,
   by decide⟩

end PMW3360
